import Mathlib

/-!
Verification development for `leastsquares_butpmcc.py` (narrow-band
least-squares array processing script).

The development has three layers:

1. A name-resolution model of the script's module-level statement
   sequence (which names each statement reads and binds), used to settle
   claims about `NameError` behaviour (`plt`, unrecognized `SOURCE`) and
   about which figure files a run actually writes.
2. Models of the helper functions `get_freqlist` and `get_winlenlist`
   from the repository's `helpers.py` module (not present under `src/`),
   modelled from the spec.
3. A functional dataflow model of the orchestration pipeline
   (lines 134-242 of the script): band loop, pre-allocated aggregate
   arrays, per-band writes, and call logs for the external beamformer
   `ltsva` and the frequency-response routine `sosfreqz`.
-/

namespace NBLS

/-! ## Layer 1: name-resolution model of the module-level statements

Python executes the module top-to-bottom.  Each statement first
evaluates the names it reads (raising `NameError` at the first unbound
name) and then binds its targets.  `PyStmt.save` marks a
`fig.savefig(save_dir + base, dpi=dpi)` call so that we can record which
image files a run writes.
-/

inductive PyStmt where
  | assign (targets : List String) (uses : List String)
  | expr (uses : List String)
  | save (dir : String) (base : String) (dpi : ℕ) (uses : List String)
deriving Repr, DecidableEq

structure ScriptState where
  env : List String
  saved : List (String × String × ℕ)
  failed : Option String
deriving Repr, DecidableEq

/-- First name in `uses` that is not bound in `env` (the name a
`NameError` would report). -/
def missingName (env : List String) (uses : List String) : Option String :=
  uses.find? (fun u => !(env.contains u))

/-- Execute one statement: a run that has already failed does nothing
further; otherwise the statement's reads are resolved and its targets
bound (a `save` statement also records the written file). -/
def runStmt (s : ScriptState) (stmt : PyStmt) : ScriptState :=
  if s.failed.isSome then s
  else
    match stmt with
    | .assign ts us =>
        match missingName s.env us with
        | some u => { s with failed := some u }
        | none => { s with env := s.env ++ ts }
    | .expr us =>
        match missingName s.env us with
        | some u => { s with failed := some u }
        | none => s
    | .save dir base dpi us =>
        match missingName s.env us with
        | some u => { s with failed := some u }
        | none => { s with saved := s.saved ++ [(dir, base, dpi)] }

def runStmts (stmts : List PyStmt) (s : ScriptState) : ScriptState :=
  stmts.foldl runStmt s

/-- Python builtins referenced by the script. -/
def builtins : List String := ["print", "range", "len", "int"]

def initState : ScriptState := { env := builtins, saved := [], failed := none }

/-- Configured figure directory (script line 96). -/
def save_dir_val : String :=
  "/Users/aiezzi/Desktop/NSF_Postdoc/Array_Processing_Research/narrow_band_least_squares/Figures/"

/-- Names bound by the import block, lines 15-25.  `matplotlib.pyplot`
(`plt`) is not among the imports. -/
def importStmts : List PyStmt :=
  [ .assign ["gather_waveforms"] []
  , .assign ["UTCDateTime", "Stream", "read"] []
  , .assign ["np"] []
  , .assign ["math"] []
  , .assign ["get_freqlist", "get_winlenlist", "filter_data", "make_float"] []
  , .assign ["broad_filter_response_plot", "processing_parameters_plot", "pmcc_like_plot"] []
  , .assign ["getrij"] []
  , .assign ["array_plot"] []
  , .assign ["ltsva"] []
  , .assign ["signal"] []
  , .assign ["multiprocessing"] [] ]

/-- User-input constant assignments, lines 35-98.  Only the uncommented
assignments are transcribed: in particular, `latlist`, `lonlist`,
`calib` and `data_dir` (lines 66-70) sit inside a triple-quoted string
and bind nothing. -/
def configStmts : List PyStmt :=
  [ .assign ["SOURCE"] []
  , .assign ["NETWORK"] []
  , .assign ["STATION"] []
  , .assign ["LOCATION"] []
  , .assign ["CHANNEL"] []
  , .assign ["START"] ["UTCDateTime"]
  , .assign ["END"] ["START"]
  , .assign ["FMIN"] []
  , .assign ["FMAX"] []
  , .assign ["nbands"] []
  , .assign ["freq_band_type"] []
  , .assign ["filter_type"] []
  , .assign ["filter_order"] []
  , .assign ["filter_ripple"] []
  , .assign ["WINOVER"] []
  , .assign ["window_length"] []
  , .assign ["WINLEN"] []
  , .assign ["WINLEN_1"] []
  , .assign ["WINLEN_X"] []
  , .assign ["ALPHA"] []
  , .assign ["mdccm_thresh"] []
  , .assign ["save_dir"] []
  , .assign ["file_type"] []
  , .assign ["dpi_num"] [] ]

/-- Data-gathering block, lines 114-126, dispatching on the `SOURCE`
string.  The `'local'` branch's `for` body is transcribed once (name
analysis is iteration-independent).  If `SOURCE` matches neither
`'IRIS'` nor `'local'`, no statement of the block runs. -/
def gatherStmts (source : String) : List PyStmt :=
  if source = "IRIS" then
    [ .assign ["st"] ["gather_waveforms", "SOURCE", "NETWORK", "STATION", "LOCATION",
                      "CHANNEL", "START", "END"]
    , .assign ["latlist"] ["st"]
    , .assign ["lonlist"] ["st"] ]
  else if source = "local" then
    [ .assign ["st"] ["Stream"]
    , .assign ["st"] ["st", "read", "data_dir"]
    , .expr ["st", "START", "END"]
    , .assign ["ii"] ["range", "len", "st"]
    , .assign ["tr"] ["st", "ii"]
    , .expr ["tr", "calib"] ]
  else []

/-- The `sampinc` initialization, lines 186-189, dispatching on the
`window_length` string; when neither branch is taken only the compared
name is read and `sampinc` stays unbound. -/
def sampincStmts (wl : String) : List PyStmt :=
  if wl = "constant" then
    [ .assign ["sampinc"] ["window_length", "WINOVER", "WINLEN", "int"] ]
  else if wl = "adaptive" then
    [ .assign ["sampinc"] ["window_length", "WINOVER", "WINLEN_X", "int"] ]
  else [ .expr ["window_length"] ]

/-- Statements from line 134 to the end of the script.  The narrow-band
loop body (lines 215-242) is transcribed once: its name usage is the
same in every iteration. -/
def mainStmts (wl : String) : List PyStmt :=
  [ .assign ["freqlist"] ["get_freqlist", "FMIN", "FMAX", "freq_band_type", "nbands"]
  , .assign ["WINLEN_list"] ["get_winlenlist", "window_length", "nbands", "WINLEN",
                             "WINLEN_1", "WINLEN_X"]
  , .assign ["rij"] ["getrij", "latlist", "lonlist"]
  , .assign ["stf_broad", "Fs", "sos"] ["filter_data", "st", "filter_type", "FMIN",
                                        "FMAX", "filter_order", "filter_ripple"]
  , .assign ["vel", "baz", "t", "mdccm", "stdict", "sig_tau"]
      ["ltsva", "stf_broad", "rij", "WINLEN", "WINOVER", "ALPHA"]
  , .assign ["fig1", "axs1"] ["array_plot", "stf_broad", "t", "mdccm", "vel", "baz",
                              "mdccm_thresh", "sig_tau"]
  , .save save_dir_val "LeastSquares" 300 ["fig1", "save_dir", "dpi_num"]
  , .expr ["plt", "fig1"]
  , .assign ["FMINL"] ["math"]
  , .assign ["FMAXL"] ["math", "Fs"]
  , .assign ["freq_resp_list"] ["np", "FMINL", "FMAXL"]
  , .assign ["w_broad", "h_broad"] ["signal", "sos", "freq_resp_list", "Fs"]
  , .assign ["fig"] ["broad_filter_response_plot", "w_broad", "h_broad", "FMIN", "FMAX",
                     "filter_type", "filter_order", "filter_ripple"]
  , .save save_dir_val "Filter_Frequency_Response_Broadband" 300 ["fig", "save_dir", "dpi_num"]
  , .expr ["plt", "fig"] ]
  ++ sampincStmts wl ++
  [ .assign ["npts"] ["len", "st"]
  , .assign ["its"] ["np", "npts", "sampinc"]
  , .assign ["nits"] ["len", "its"]
  , .assign ["vector_len"] ["int", "nits", "Fs"]
  , .assign ["vel_array"] ["np", "nbands", "vector_len"]
  , .assign ["baz_array"] ["np", "nbands", "vector_len"]
  , .assign ["mdccm_array"] ["np", "nbands", "vector_len"]
  , .assign ["t_array"] ["np", "nbands", "vector_len"]
  , .assign ["w_array"] ["np", "nbands", "len", "w_broad"]
  , .assign ["h_array"] ["np", "nbands", "len", "h_broad"]
  , .assign ["num_cores"] ["multiprocessing"]
  , .expr ["print", "num_cores"]
  , .assign ["num_compute_list"] []
  , .assign ["ii"] ["range", "nbands"]
  , .assign ["tempfmin"] ["freqlist", "ii"]
  , .assign ["tempfmax"] ["freqlist", "ii"]
  , .assign ["tempst_filter", "Fs", "sos"] ["filter_data", "st", "filter_type",
      "tempfmin", "tempfmax", "filter_order", "filter_ripple"]
  , .assign ["w", "h"] ["signal", "sos", "freq_resp_list", "Fs"]
  , .expr ["w_array", "ii", "w"]
  , .expr ["h_array", "ii", "h"]
  , .assign ["vel", "baz", "t", "mdccm", "stdict", "sig_tau"]
      ["ltsva", "tempst_filter", "rij", "WINLEN_list", "ii", "WINOVER", "ALPHA"]
  , .assign ["vel_float"] ["make_float", "vel"]
  , .assign ["baz_float"] ["make_float", "baz"]
  , .assign ["mdccm_float"] ["make_float", "mdccm"]
  , .assign ["t_float"] ["make_float", "t"]
  , .expr ["vel_array", "ii", "len", "vel_float"]
  , .expr ["baz_array", "ii", "len", "baz_float"]
  , .expr ["mdccm_array", "ii", "len", "mdccm_float"]
  , .expr ["t_array", "ii", "len", "t_float"]
  , .expr ["num_compute_list", "len", "vel_float"]
  , .assign ["fig"] ["processing_parameters_plot", "rij", "freqlist", "WINLEN_list",
      "nbands", "FMIN", "FMAX", "w_array", "h_array", "filter_type", "filter_order",
      "filter_ripple"]
  , .save save_dir_val "Processing_Parameters" 300 ["fig", "save_dir", "dpi_num"]
  , .expr ["plt", "fig"]
  , .assign ["fig"] ["pmcc_like_plot", "FMIN", "FMAX", "stf_broad", "nbands", "freqlist",
      "vel_array", "baz_array", "mdccm_array", "t_array", "num_compute_list",
      "mdccm_thresh"]
  , .save save_dir_val "LeastSquaresButPMCC" 300 ["fig", "save_dir", "dpi_num"]
  , .expr ["plt", "fig"] ]

/-- The whole module, parametrized by the two configuration strings the
script branches on. -/
def script (source wl : String) : List PyStmt :=
  importStmts ++ configStmts ++ gatherStmts source ++ mainStmts wl

/-- A run of the module with the configured values
`SOURCE = 'IRIS'`, `window_length = 'adaptive'`. -/
def configuredRun : ScriptState :=
  runStmts (script "IRIS" "adaptive") initState

/-- Every name a statement can bind. -/
def stmtTargets : PyStmt → List String
  | .assign ts _ => ts
  | .expr _ => []
  | .save _ _ _ _ => []

/-- All names the script can ever bind (imports, assignments). -/
def allBoundNames (stmts : List PyStmt) : List String :=
  stmts.foldl (fun acc s => acc ++ stmtTargets s) []

/-- The figure-save statements appearing in the script text, in order. -/
def saveTriples (stmts : List PyStmt) : List (String × String × ℕ) :=
  stmts.foldl (fun acc s => match s with
    | .save dir base dpi _ => acc ++ [(dir, base, dpi)]
    | _ => acc) []

set_option maxRecDepth 80000

/-- C2: the name `plt` is referenced (`plt.close`) after every figure
save but is never imported or otherwise bound, so the run raises an
undefined-name error at the first `plt.close(fig1)` call, immediately
after the first figure (`LeastSquares`) is saved; consequently the run
never reaches the narrow-band loop (the `num_compute_list` binding that
immediately precedes it is never made) and produces none of the later
figures. -/
theorem C2_plt_never_bound_run_fails :
    (allBoundNames (script "IRIS" "adaptive")).contains "plt" = false ∧
    configuredRun.failed = some "plt" ∧
    configuredRun.saved = [(save_dir_val, "LeastSquares", 300)] ∧
    configuredRun.env.contains "num_compute_list" = false ∧
    configuredRun.env.contains "vel_float" = false := by
  decide

/-- C6 counterexample: a run of the script writes exactly one image
file (`LeastSquares`), not three, because the `plt.close` call after
the first save fails. -/
theorem C6_counterexample_one_file_not_three :
    configuredRun.saved.length = 1 ∧ configuredRun.saved.length ≠ 3 := by
  decide

/-- C6 (amended): the script text contains four figure-save statements
with base names `LeastSquares`, `Filter_Frequency_Response_Broadband`,
`Processing_Parameters`, `LeastSquaresButPMCC`, all targeting the
configured save directory at the configured DPI (300); an actual run
performs only the first of them (writing one file) and releases no
figure, because `plt.close` raises an undefined-name error right after
the first save. -/
theorem C6_amended_four_save_statements_one_written :
    saveTriples (script "IRIS" "adaptive") =
      [(save_dir_val, "LeastSquares", 300),
       (save_dir_val, "Filter_Frequency_Response_Broadband", 300),
       (save_dir_val, "Processing_Parameters", 300),
       (save_dir_val, "LeastSquaresButPMCC", 300)] ∧
    configuredRun.saved = [(save_dir_val, "LeastSquares", 300)] ∧
    configuredRun.failed = some "plt" := by
  decide

/-- C10 counterexample: with `SOURCE = 'foo'`, the run's undefined-name
failure is at `latlist` (raised by the geometry statement
`rij = getrij(latlist, lonlist)`), not at the first use of `st` in the
broadband filtering step as the claim states: `rij` and `stf_broad`
never get bound. -/
theorem C10_counterexample_fails_at_latlist_not_st :
    (runStmts (script "foo" "adaptive") initState).failed = some "latlist" ∧
    (some "latlist" ≠ some "st") ∧
    (runStmts (script "foo" "adaptive") initState).env.contains "rij" = false ∧
    (runStmts (script "foo" "adaptive") initState).env.contains "stf_broad" = false := by
  decide

/-- C10 (amended): if `SOURCE` is any value other than `'IRIS'` or
`'local'`, the acquisition step is skipped entirely (neither branch
runs), `st` is never bound, and the run fails with an undefined-name
error — but at the array-geometry statement `rij = getrij(latlist,
lonlist)` on the name `latlist` (also unbound, because the local-example
assignments are commented out), before the first use of `st` is ever
reached; no file is written and there is no diagnostic or fallback. -/
theorem C10_amended_unknown_source_fails_at_latlist (source : String)
    (h1 : source ≠ "IRIS") (h2 : source ≠ "local") :
    gatherStmts source = [] ∧
    (runStmts (script source "adaptive") initState).env.contains "st" = false ∧
    (runStmts (script source "adaptive") initState).failed = some "latlist" ∧
    (runStmts (script source "adaptive") initState).saved = [] := by
  have hg : gatherStmts source = [] := by simp [gatherStmts, h1, h2]
  refine ⟨hg, ?_, ?_, ?_⟩ <;>
    · unfold script
      rw [hg]
      decide

/-- Witness for the amended C10 at the concrete source string `'foo'`. -/
theorem C10_amended_unknown_source_fails_at_latlist_witness :
    ("foo" ≠ "IRIS") ∧ ("foo" ≠ "local") ∧
    (gatherStmts "foo" = [] ∧
     (runStmts (script "foo" "adaptive") initState).env.contains "st" = false ∧
     (runStmts (script "foo" "adaptive") initState).failed = some "latlist" ∧
     (runStmts (script "foo" "adaptive") initState).saved = []) :=
  ⟨by decide, by decide,
   C10_amended_unknown_source_fails_at_latlist "foo" (by decide) (by decide)⟩

/-! ## Layer 2: the band planner (`get_freqlist`, `get_winlenlist`)

These two functions live in the repository's `helpers.py`, which is not
present under `src/` (the script only imports and calls them), so they
are modelled from the spec.  The script's `freq_band_type` and
`window_length` strings take exactly two recognized values each; they
are modelled as two-constructor types.
-/

inductive FreqBandType where
  | linear
  | log
deriving Repr, DecidableEq

inductive WindowMode where
  | constant
  | adaptive
deriving Repr, DecidableEq

/-- Linear-mode frequency edge `i`: edges evenly spaced between `FMIN`
and `FMAX`. -/
noncomputable def linEdge (FMIN FMAX : ℝ) (nbands i : ℕ) : ℝ :=
  FMIN + i * ((FMAX - FMIN) / nbands)

/-- Log-mode frequency edge `i`: edges evenly spaced in log10 space
between `FMIN` and `FMAX`, then exponentiated. -/
noncomputable def logEdge (FMIN FMAX : ℝ) (nbands i : ℕ) : ℝ :=
  (10 : ℝ) ^ (Real.logb 10 FMIN +
    i * ((Real.logb 10 FMAX - Real.logb 10 FMIN) / nbands))

/-- Modelled from the spec: `get_freqlist` from the repository's
`helpers.py` (missing from `src/`).  "Band Planner ... computes
`nbands+1` frequency edges (linear or logarithmic spacing) ...  Linear
mode: evenly spaced between FMIN and FMAX.  Log mode: evenly spaced in
log10 space between FMIN and FMAX, then exponentiated." -/
noncomputable def get_freqlist (FMIN FMAX : ℝ) (freq_band_type : FreqBandType)
    (nbands : ℕ) : List ℝ :=
  match freq_band_type with
  | .linear => (List.range (nbands + 1)).map (linEdge FMIN FMAX nbands)
  | .log => (List.range (nbands + 1)).map (logEdge FMIN FMAX nbands)

/-- Modelled from the spec: `get_winlenlist` from the repository's
`helpers.py` (missing from `src/`).  "if mode is `'constant'`, every
band gets the same length.  If `'adaptive'`, lengths are linearly
interpolated across band index from `WINLEN_1` (band 0) to `WINLEN_X`
(band nbands−1)." -/
def get_winlenlist (window_length : WindowMode) (nbands : ℕ)
    (WINLEN WINLEN_1 WINLEN_X : ℚ) : List ℚ :=
  match window_length with
  | .constant => List.replicate nbands WINLEN
  | .adaptive =>
      (List.range nbands).map
        (fun i : ℕ =>
          WINLEN_1 + (i : ℚ) * ((WINLEN_X - WINLEN_1) / ((nbands : ℚ) - 1)))

theorem getD_range_map {α : Type} (f : ℕ → α) (d : α) {n i : ℕ} (h : i < n) :
    (((List.range n).map f).getD i d) = f i := by
  have hl : i < ((List.range n).map f).length := by simpa using h
  rw [List.getD_eq_getElem _ _ hl]
  simp

theorem logEdge_eval (FMIN FMAX : ℝ) (nbands i : ℕ) :
    Real.logb 10 (logEdge FMIN FMAX nbands i) =
      Real.logb 10 FMIN +
        i * ((Real.logb 10 FMAX - Real.logb 10 FMIN) / nbands) := by
  unfold logEdge
  exact Real.logb_rpow (by norm_num) (by norm_num)

theorem logEdge_zero {FMIN : ℝ} (FMAX : ℝ) (nbands : ℕ) (h0 : 0 < FMIN) :
    logEdge FMIN FMAX nbands 0 = FMIN := by
  unfold logEdge
  rw [Nat.cast_zero, zero_mul, add_zero]
  exact Real.rpow_logb (by norm_num) (by norm_num) h0

theorem logEdge_last (FMIN : ℝ) {FMAX : ℝ} {nbands : ℕ} (hn : 1 ≤ nbands)
    (h1 : 0 < FMAX) : logEdge FMIN FMAX nbands nbands = FMAX := by
  unfold logEdge
  have hne : (nbands : ℝ) ≠ 0 := by
    have : (0 : ℝ) < nbands := by exact_mod_cast hn
    exact this.ne'
  have he : Real.logb 10 FMIN +
      (nbands : ℝ) * ((Real.logb 10 FMAX - Real.logb 10 FMIN) / nbands) =
        Real.logb 10 FMAX := by
    field_simp
  rw [he]
  exact Real.rpow_logb (by norm_num) (by norm_num) h1

theorem logEdge_succ (FMIN FMAX : ℝ) (nbands i : ℕ) :
    logEdge FMIN FMAX nbands (i + 1) =
      logEdge FMIN FMAX nbands i *
        (10 : ℝ) ^ ((Real.logb 10 FMAX - Real.logb 10 FMIN) / nbands) := by
  unfold logEdge
  rw [← Real.rpow_add (by norm_num : (0:ℝ) < 10)]
  congr 1
  push_cast
  ring

/-- C3: for every `nbands ≥ 1` and `0 < FMIN < FMAX`, the band planner
`get_freqlist` returns exactly `nbands + 1` strictly increasing
frequency edges with first edge `FMIN` and last edge `FMAX`; in linear
mode the edges are evenly spaced, and in log mode the log10 of the
edges are evenly spaced, so that the ratio of consecutive edges is the
constant `10 ^ ((log10 FMAX - log10 FMIN) / nbands)` (as in the example
`FMIN = 0.07`, `FMAX = 5.0`, `nbands = 10`, log spacing). -/
theorem C3_get_freqlist_edges (FMIN FMAX : ℝ) (nbands : ℕ)
    (hn : 1 ≤ nbands) (h0 : 0 < FMIN) (h01 : FMIN < FMAX) :
    (∀ t, (get_freqlist FMIN FMAX t nbands).length = nbands + 1) ∧
    (∀ t, (get_freqlist FMIN FMAX t nbands).getD 0 0 = FMIN) ∧
    (∀ t, (get_freqlist FMIN FMAX t nbands).getD nbands 0 = FMAX) ∧
    (∀ t, ∀ i, i < nbands →
      (get_freqlist FMIN FMAX t nbands).getD i 0 <
        (get_freqlist FMIN FMAX t nbands).getD (i + 1) 0) ∧
    (∀ i, i < nbands →
      (get_freqlist FMIN FMAX .linear nbands).getD (i + 1) 0 -
        (get_freqlist FMIN FMAX .linear nbands).getD i 0 =
          (FMAX - FMIN) / nbands) ∧
    (∀ i, i < nbands →
      Real.logb 10 ((get_freqlist FMIN FMAX .log nbands).getD (i + 1) 0) -
        Real.logb 10 ((get_freqlist FMIN FMAX .log nbands).getD i 0) =
          (Real.logb 10 FMAX - Real.logb 10 FMIN) / nbands) ∧
    (∀ i, i < nbands →
      (get_freqlist FMIN FMAX .log nbands).getD (i + 1) 0 /
        (get_freqlist FMIN FMAX .log nbands).getD i 0 =
          (10 : ℝ) ^ ((Real.logb 10 FMAX - Real.logb 10 FMIN) / nbands)) := by
  have hnR : (0 : ℝ) < nbands := by exact_mod_cast hn
  have hne : (nbands : ℝ) ≠ 0 := hnR.ne'
  have hF1 : 0 < FMAX := lt_trans h0 h01
  have hL : Real.logb 10 FMIN < Real.logb 10 FMAX :=
    Real.logb_lt_logb (by norm_num) h0 h01
  have hdel : 0 < (Real.logb 10 FMAX - Real.logb 10 FMIN) / nbands :=
    div_pos (sub_pos.mpr hL) hnR
  have hlin : 0 < (FMAX - FMIN) / nbands := div_pos (sub_pos.mpr h01) hnR
  refine ⟨?_, ?_, ?_, ?_, ?_, ?_, ?_⟩
  · intro t
    cases t <;> simp [get_freqlist]
  · intro t
    cases t
    · simp only [get_freqlist]
      rw [getD_range_map _ _ (by omega)]
      simp [linEdge]
    · simp only [get_freqlist]
      rw [getD_range_map _ _ (by omega)]
      exact logEdge_zero FMAX nbands h0
  · intro t
    cases t
    · simp only [get_freqlist]
      rw [getD_range_map _ _ (by omega)]
      unfold linEdge
      field_simp
    · simp only [get_freqlist]
      rw [getD_range_map _ _ (by omega)]
      exact logEdge_last FMIN hn hF1
  · intro t i hi
    cases t
    · simp only [get_freqlist]
      rw [getD_range_map _ _ (by omega), getD_range_map _ _ (by omega)]
      unfold linEdge
      have hlt : (i : ℝ) < (i : ℝ) + 1 := lt_add_one _
      have h2 := mul_lt_mul_of_pos_right hlt hlin
      push_cast
      linarith
    · simp only [get_freqlist]
      rw [getD_range_map _ _ (by omega), getD_range_map _ _ (by omega)]
      rw [logEdge_succ]
      have hpos : 0 < logEdge FMIN FMAX nbands i :=
        Real.rpow_pos_of_pos (by norm_num) _
      have h10 : (1 : ℝ) < (10 : ℝ) ^
          ((Real.logb 10 FMAX - Real.logb 10 FMIN) / nbands) := by
        rw [show (1 : ℝ) = (10 : ℝ) ^ (0 : ℝ) by simp]
        exact (Real.rpow_lt_rpow_left_iff (by norm_num)).mpr hdel
      nlinarith
  · intro i hi
    simp only [get_freqlist]
    rw [getD_range_map _ _ (by omega), getD_range_map _ _ (by omega)]
    unfold linEdge
    push_cast
    ring
  · intro i hi
    simp only [get_freqlist]
    rw [getD_range_map _ _ (by omega), getD_range_map _ _ (by omega),
      logEdge_eval, logEdge_eval]
    push_cast
    ring
  · intro i hi
    simp only [get_freqlist]
    rw [getD_range_map _ _ (by omega), getD_range_map _ _ (by omega),
      logEdge_succ]
    have hpos : logEdge FMIN FMAX nbands i ≠ 0 :=
      (Real.rpow_pos_of_pos (by norm_num) _).ne'
    rw [mul_comm, mul_div_assoc, div_self hpos, mul_one]

/-- Witness for C3 at the spec's example scenario `FMIN = 0.07`,
`FMAX = 5.0`, `nbands = 10`. -/
theorem C3_get_freqlist_edges_witness :
    (1 ≤ 10) ∧ ((0 : ℝ) < 0.07) ∧ ((0.07 : ℝ) < 5) ∧
    ((∀ t, (get_freqlist 0.07 5 t 10).length = 10 + 1) ∧
     (∀ t, (get_freqlist 0.07 5 t 10).getD 0 0 = 0.07) ∧
     (∀ t, (get_freqlist 0.07 5 t 10).getD 10 0 = 5) ∧
     (∀ t, ∀ i, i < 10 →
       (get_freqlist 0.07 5 t 10).getD i 0 <
         (get_freqlist 0.07 5 t 10).getD (i + 1) 0) ∧
     (∀ i, i < 10 →
       (get_freqlist 0.07 5 .linear 10).getD (i + 1) 0 -
         (get_freqlist 0.07 5 .linear 10).getD i 0 = (5 - 0.07) / 10) ∧
     (∀ i, i < 10 →
       Real.logb 10 ((get_freqlist 0.07 5 .log 10).getD (i + 1) 0) -
         Real.logb 10 ((get_freqlist 0.07 5 .log 10).getD i 0) =
           (Real.logb 10 5 - Real.logb 10 0.07) / 10) ∧
     (∀ i, i < 10 →
       (get_freqlist 0.07 5 .log 10).getD (i + 1) 0 /
         (get_freqlist 0.07 5 .log 10).getD i 0 =
           (10 : ℝ) ^ ((Real.logb 10 5 - Real.logb 10 0.07) / 10))) := by
  refine ⟨by norm_num, by norm_num, by norm_num, ?_⟩
  have h := C3_get_freqlist_edges 0.07 5 10 (by norm_num) (by norm_num) (by norm_num)
  simpa using h

/-- C4: `get_winlenlist` returns exactly `nbands` window lengths; in
constant mode every entry is `WINLEN`; in adaptive mode the entries run
from `WINLEN_1` at band 0 to `WINLEN_X` at band `nbands - 1` with a
constant increment (linear interpolation), hence form a monotonic
sequence (nonincreasing when `WINLEN_X ≤ WINLEN_1`, nondecreasing
otherwise), as in the example `WINLEN_1 = 60`, `WINLEN_X = 30`,
`nbands = 10`. -/
theorem C4_get_winlenlist (nbands : ℕ) (WINLEN WINLEN_1 WINLEN_X : ℚ)
    (hn : 2 ≤ nbands) :
    (∀ wl, (get_winlenlist wl nbands WINLEN WINLEN_1 WINLEN_X).length = nbands) ∧
    (∀ i, i < nbands →
      (get_winlenlist .constant nbands WINLEN WINLEN_1 WINLEN_X).getD i 0 =
        WINLEN) ∧
    ((get_winlenlist .adaptive nbands WINLEN WINLEN_1 WINLEN_X).getD 0 0 =
        WINLEN_1) ∧
    ((get_winlenlist .adaptive nbands WINLEN WINLEN_1 WINLEN_X).getD
        (nbands - 1) 0 = WINLEN_X) ∧
    (∀ i, i + 1 < nbands →
      (get_winlenlist .adaptive nbands WINLEN WINLEN_1 WINLEN_X).getD (i + 1) 0 -
        (get_winlenlist .adaptive nbands WINLEN WINLEN_1 WINLEN_X).getD i 0 =
          (WINLEN_X - WINLEN_1) / ((nbands : ℚ) - 1)) ∧
    (WINLEN_X ≤ WINLEN_1 → ∀ i j, i ≤ j → j < nbands →
      (get_winlenlist .adaptive nbands WINLEN WINLEN_1 WINLEN_X).getD j 0 ≤
        (get_winlenlist .adaptive nbands WINLEN WINLEN_1 WINLEN_X).getD i 0) ∧
    (WINLEN_1 ≤ WINLEN_X → ∀ i j, i ≤ j → j < nbands →
      (get_winlenlist .adaptive nbands WINLEN WINLEN_1 WINLEN_X).getD i 0 ≤
        (get_winlenlist .adaptive nbands WINLEN WINLEN_1 WINLEN_X).getD j 0) := by
  have hposQ : (0 : ℚ) < (nbands : ℚ) - 1 := by
    have : (2 : ℚ) ≤ (nbands : ℚ) := by exact_mod_cast hn
    linarith
  refine ⟨?_, ?_, ?_, ?_, ?_, ?_, ?_⟩
  · intro wl
    cases wl <;> simp [get_winlenlist]
  · intro i hi
    simp only [get_winlenlist]
    have hl : i < (List.replicate nbands WINLEN).length := by simpa using hi
    rw [List.getD_eq_getElem _ _ hl]
    simp
  · simp only [get_winlenlist]
    rw [getD_range_map _ _ (by omega)]
    simp
  · simp only [get_winlenlist]
    rw [getD_range_map _ _ (by omega)]
    have hc : (((nbands - 1 : ℕ)) : ℚ) = (nbands : ℚ) - 1 := by
      have : 1 ≤ nbands := by omega
      push_cast [this]
      ring
    rw [hc, mul_div_cancel₀ _ hposQ.ne']
    ring
  · intro i hi
    simp only [get_winlenlist]
    rw [getD_range_map _ _ (by omega), getD_range_map _ _ (by omega)]
    push_cast
    ring
  · intro hXle i j hij hj
    simp only [get_winlenlist]
    rw [getD_range_map _ _ (by omega), getD_range_map _ _ (by omega)]
    have hijQ : (i : ℚ) ≤ (j : ℚ) := by exact_mod_cast hij
    have hnum : WINLEN_X - WINLEN_1 ≤ 0 := by linarith
    have hfrac : (WINLEN_X - WINLEN_1) / ((nbands : ℚ) - 1) ≤ 0 :=
      div_nonpos_of_nonpos_of_nonneg hnum hposQ.le
    nlinarith [mul_nonneg (sub_nonneg.mpr hijQ) (neg_nonneg.mpr hfrac)]
  · intro hXge i j hij hj
    simp only [get_winlenlist]
    rw [getD_range_map _ _ (by omega), getD_range_map _ _ (by omega)]
    have hijQ : (i : ℚ) ≤ (j : ℚ) := by exact_mod_cast hij
    have hnum : 0 ≤ WINLEN_X - WINLEN_1 := by linarith
    have hfrac : 0 ≤ (WINLEN_X - WINLEN_1) / ((nbands : ℚ) - 1) :=
      div_nonneg hnum hposQ.le
    nlinarith [mul_nonneg (sub_nonneg.mpr hijQ) hfrac]

/-- Witness for C4 at the spec's example scenario
`window_length = 'adaptive'`, `WINLEN_1 = 60`, `WINLEN_X = 30`,
`nbands = 10` (with `WINLEN = 50`). -/
theorem C4_get_winlenlist_witness :
    (2 ≤ 10) ∧
    ((∀ wl, (get_winlenlist wl 10 50 60 30).length = 10) ∧
     (∀ i, i < 10 → (get_winlenlist .constant 10 50 60 30).getD i 0 = 50) ∧
     ((get_winlenlist .adaptive 10 50 60 30).getD 0 0 = 60) ∧
     ((get_winlenlist .adaptive 10 50 60 30).getD (10 - 1) 0 = 30) ∧
     (∀ i, i + 1 < 10 →
       (get_winlenlist .adaptive 10 50 60 30).getD (i + 1) 0 -
         (get_winlenlist .adaptive 10 50 60 30).getD i 0 =
           (30 - 60) / ((10 : ℚ) - 1)) ∧
     ((30 : ℚ) ≤ 60 → ∀ i j, i ≤ j → j < 10 →
       (get_winlenlist .adaptive 10 50 60 30).getD j 0 ≤
         (get_winlenlist .adaptive 10 50 60 30).getD i 0) ∧
     ((60 : ℚ) ≤ 30 → ∀ i j, i ≤ j → j < 10 →
       (get_winlenlist .adaptive 10 50 60 30).getD i 0 ≤
         (get_winlenlist .adaptive 10 50 60 30).getD j 0)) := by
  refine ⟨by norm_num, ?_⟩
  have h := C4_get_winlenlist 10 50 60 30 (by norm_num)
  simpa using h

/-! ## Layer 3: functional dataflow model of the pipeline (lines 134-264)

The external domain libraries (`filter_data`, `sosfreqz`, `ltsva`,
`make_float`, `getrij`, the waveform collection, and the frequency-grid
construction) are abstract parameters bundled in `Ext`; the
configuration constants are bundled in `Params`.  Type parameters:

* `F`  — frequency values (the entries of `freqlist`),
* `G`  — the frequency-response evaluation grid (`freq_resp_list`),
* `Sig` — waveform collections (`st`, filtered streams),
* `SOS` — second-order-section filter objects,
* `Geo` — the array geometry matrix `rij`,
* `Raw` — raw beamformer output sequences (before `make_float`),
* `StD` — the `stdict` ancillary output,
* `C`  — entries of the complex-valued response arrays `w`/`h`.
-/

structure Ext (F G Sig SOS Geo Raw StD C : Type) where
  filter_data : Sig → String → F → F → ℕ → ℚ → Sig × ℚ × SOS
  sosfreqz : SOS → G → ℚ → List C × List C
  ltsva : Sig → Geo → ℚ → ℚ → ℚ → Raw × Raw × Raw × Raw × StD × Raw
  make_float : Raw → List ℚ
  getrij : List ℚ → List ℚ → Geo
  npts_of : Sig → ℕ
  mkGrid : ℚ → G

structure Params (F G Sig SOS Geo Raw StD C : Type) where
  ext : Ext F G Sig SOS Geo Raw StD C
  filter_type : String
  FMIN : F
  FMAX : F
  filter_order : ℕ
  filter_ripple : ℚ
  WINOVER : ℚ
  window_length : WindowMode
  WINLEN : ℚ
  WINLEN_X : ℚ
  ALPHA : ℚ
  nbands : ℕ
  freqlist : List F
  WINLEN_list : List ℚ

/-- Python `int()` on a rational value: truncation toward zero
(`Int.tdiv` of the reduced numerator by the positive denominator). -/
def py_int (q : ℚ) : ℤ :=
  Int.tdiv q.num q.den

/-- Length of `np.arange(0, stop, step)` for integer `step`: `⌈stop/step⌉`
elements when `step > 0`, none otherwise (`step = 0` raises in numpy and
cannot occur for the configured window parameters). -/
def arangeLen (stop : ℕ) (step : ℤ) : ℕ :=
  if 0 < step then (((stop : ℤ) + step - 1) / step).toNat else 0

/-- Lines 186-193: the common column capacity `vector_len` of the
aggregate arrays, computed from the shortest configured window length
(`WINLEN` in constant mode, `WINLEN_X` in adaptive mode), the sample
increment `int((1 - WINOVER) * length)`, the full broadband record
length `npts`, and the broadband sampling rate `Fs`. -/
def windowCapacity (window_length : WindowMode) (WINOVER WINLEN WINLEN_X : ℚ)
    (npts : ℕ) (Fs : ℚ) : ℤ :=
  py_int (((arangeLen npts
      (py_int ((1 - WINOVER) *
        (match window_length with
         | .constant => WINLEN
         | .adaptive => WINLEN_X))) : ℤ) - 1 : ℤ) / (Fs : ℚ))

/-- Mutable script state threaded through the narrow-band loop.  The
six 2-D numpy arrays are modelled row-wise; `np.empty` rows are filled
with an arbitrary `undef` value supplied as an input, because numpy
leaves them uninitialized.  `ltsva_winlens` and `sosfreqz_grids` record
the window-length argument of every `ltsva` call and the grid argument
of every `sosfreqz` call, in order.  `error` is set when a numpy row
assignment would fail to broadcast (at which point the real script
raises and stops). -/
structure PState (G Sig SOS Geo C : Type) where
  st : Sig
  rij : Geo
  freq_resp_list : G
  Fs : ℚ
  sos : SOS
  vel_array : ℕ → List ℚ
  baz_array : ℕ → List ℚ
  mdccm_array : ℕ → List ℚ
  t_array : ℕ → List ℚ
  w_array : ℕ → List C
  h_array : ℕ → List C
  num_compute_list : List ℕ
  ltsva_winlens : List ℚ
  sosfreqz_grids : List G
  error : Bool

def updateAt {α : Type} (f : ℕ → α) (i : ℕ) (v : α) : ℕ → α :=
  fun j => if j = i then v else f j

/-- Numpy `row[:len(xs)] = xs` (valid when `xs.length ≤ row.length`). -/
def writePrefix {α : Type} (row : List α) (xs : List α) : List α :=
  xs ++ row.drop xs.length

variable {F G Sig SOS Geo Raw StD C : Type}

/-- Line 219: `filter_data(st, filter_type, freqlist[ii], freqlist[ii+1],
filter_order, filter_ripple)` (list indexing total-ized with the band
bounds as defaults; in a run `freqlist` has `nbands + 1 > i + 1`
entries). -/
def bandFilt (P : Params F G Sig SOS Geo Raw StD C) (st : Sig) (i : ℕ) :
    Sig × ℚ × SOS :=
  P.ext.filter_data st P.filter_type (P.freqlist.getD i P.FMIN)
    (P.freqlist.getD (i + 1) P.FMAX) P.filter_order P.filter_ripple

/-- Line 220: `signal.sosfreqz(sos, freq_resp_list, fs=Fs)` for band `i`. -/
def bandWH (P : Params F G Sig SOS Geo Raw StD C) (st : Sig) (g : G) (i : ℕ) :
    List C × List C :=
  P.ext.sosfreqz (bandFilt P st i).2.2 g (bandFilt P st i).2.1

/-- Line 226: `ltsva(tempst_filter, rij, WINLEN_list[ii], WINOVER, ALPHA)`
for band `i`; output order `(vel, baz, t, mdccm, stdict, sig_tau)`. -/
def bandLt (P : Params F G Sig SOS Geo Raw StD C) (st : Sig) (rij : Geo)
    (i : ℕ) : Raw × Raw × Raw × Raw × StD × Raw :=
  P.ext.ltsva (bandFilt P st i).1 rij (P.WINLEN_list.getD i 0) P.WINOVER P.ALPHA

/-- Line 229: `vel_float = make_float(vel)`. -/
def velFloat (P : Params F G Sig SOS Geo Raw StD C) (st : Sig) (rij : Geo)
    (i : ℕ) : List ℚ :=
  P.ext.make_float (bandLt P st rij i).1

/-- Line 230: `baz_float = make_float(baz)`. -/
def bazFloat (P : Params F G Sig SOS Geo Raw StD C) (st : Sig) (rij : Geo)
    (i : ℕ) : List ℚ :=
  P.ext.make_float (bandLt P st rij i).2.1

/-- Line 231: `mdccm_float = make_float(mdccm)` (`mdccm` is the fourth
component of the `ltsva` output). -/
def mdccmFloat (P : Params F G Sig SOS Geo Raw StD C) (st : Sig) (rij : Geo)
    (i : ℕ) : List ℚ :=
  P.ext.make_float (bandLt P st rij i).2.2.2.1

/-- Line 232: `t_float = make_float(t)` (`t` is the third component of
the `ltsva` output). -/
def tFloat (P : Params F G Sig SOS Geo Raw StD C) (st : Sig) (rij : Geo)
    (i : ℕ) : List ℚ :=
  P.ext.make_float (bandLt P st rij i).2.2.1

/-- One iteration of the narrow-band loop (lines 215-242) for band `i`.
A run that has already failed does nothing.  Otherwise, in source
order: rebind `Fs`/`sos` from `filter_data`, call `sosfreqz` on the
shared `freq_resp_list` grid, assign the full rows `w_array[ii,:]` and
`h_array[ii,:]` (numpy raises unless the lengths match exactly), call
`ltsva`, convert its outputs, assign the prefixes
`vel_array[ii,:len(...)]` etc. (numpy raises if the data is longer than
the row), and append `len(vel_float)` to `num_compute_list`.  Each
failure branch keeps exactly the effects that precede the failing
assignment and sets `error`. -/
def bandStep (P : Params F G Sig SOS Geo Raw StD C) (i : ℕ)
    (s : PState G Sig SOS Geo C) : PState G Sig SOS Geo C :=
  if s.error = true then s
  else if (bandWH P s.st s.freq_resp_list i).1.length = (s.w_array i).length then
    if (bandWH P s.st s.freq_resp_list i).2.length = (s.h_array i).length then
      if (velFloat P s.st s.rij i).length ≤ (s.vel_array i).length then
        if (bazFloat P s.st s.rij i).length ≤ (s.baz_array i).length then
          if (mdccmFloat P s.st s.rij i).length ≤ (s.mdccm_array i).length then
            if (tFloat P s.st s.rij i).length ≤ (s.t_array i).length then
              { s with
                Fs := (bandFilt P s.st i).2.1
                sos := (bandFilt P s.st i).2.2
                sosfreqz_grids := s.sosfreqz_grids ++ [s.freq_resp_list]
                w_array := updateAt s.w_array i (bandWH P s.st s.freq_resp_list i).1
                h_array := updateAt s.h_array i (bandWH P s.st s.freq_resp_list i).2
                ltsva_winlens := s.ltsva_winlens ++ [P.WINLEN_list.getD i 0]
                vel_array := updateAt s.vel_array i
                  (writePrefix (s.vel_array i) (velFloat P s.st s.rij i))
                baz_array := updateAt s.baz_array i
                  (writePrefix (s.baz_array i) (bazFloat P s.st s.rij i))
                mdccm_array := updateAt s.mdccm_array i
                  (writePrefix (s.mdccm_array i) (mdccmFloat P s.st s.rij i))
                t_array := updateAt s.t_array i
                  (writePrefix (s.t_array i) (tFloat P s.st s.rij i))
                num_compute_list :=
                  s.num_compute_list ++ [(velFloat P s.st s.rij i).length] }
            else
              { s with
                Fs := (bandFilt P s.st i).2.1
                sos := (bandFilt P s.st i).2.2
                sosfreqz_grids := s.sosfreqz_grids ++ [s.freq_resp_list]
                w_array := updateAt s.w_array i (bandWH P s.st s.freq_resp_list i).1
                h_array := updateAt s.h_array i (bandWH P s.st s.freq_resp_list i).2
                ltsva_winlens := s.ltsva_winlens ++ [P.WINLEN_list.getD i 0]
                vel_array := updateAt s.vel_array i
                  (writePrefix (s.vel_array i) (velFloat P s.st s.rij i))
                baz_array := updateAt s.baz_array i
                  (writePrefix (s.baz_array i) (bazFloat P s.st s.rij i))
                mdccm_array := updateAt s.mdccm_array i
                  (writePrefix (s.mdccm_array i) (mdccmFloat P s.st s.rij i))
                error := true }
          else
            { s with
              Fs := (bandFilt P s.st i).2.1
              sos := (bandFilt P s.st i).2.2
              sosfreqz_grids := s.sosfreqz_grids ++ [s.freq_resp_list]
              w_array := updateAt s.w_array i (bandWH P s.st s.freq_resp_list i).1
              h_array := updateAt s.h_array i (bandWH P s.st s.freq_resp_list i).2
              ltsva_winlens := s.ltsva_winlens ++ [P.WINLEN_list.getD i 0]
              vel_array := updateAt s.vel_array i
                (writePrefix (s.vel_array i) (velFloat P s.st s.rij i))
              baz_array := updateAt s.baz_array i
                (writePrefix (s.baz_array i) (bazFloat P s.st s.rij i))
              error := true }
        else
          { s with
            Fs := (bandFilt P s.st i).2.1
            sos := (bandFilt P s.st i).2.2
            sosfreqz_grids := s.sosfreqz_grids ++ [s.freq_resp_list]
            w_array := updateAt s.w_array i (bandWH P s.st s.freq_resp_list i).1
            h_array := updateAt s.h_array i (bandWH P s.st s.freq_resp_list i).2
            ltsva_winlens := s.ltsva_winlens ++ [P.WINLEN_list.getD i 0]
            vel_array := updateAt s.vel_array i
              (writePrefix (s.vel_array i) (velFloat P s.st s.rij i))
            error := true }
      else
        { s with
          Fs := (bandFilt P s.st i).2.1
          sos := (bandFilt P s.st i).2.2
          sosfreqz_grids := s.sosfreqz_grids ++ [s.freq_resp_list]
          w_array := updateAt s.w_array i (bandWH P s.st s.freq_resp_list i).1
          h_array := updateAt s.h_array i (bandWH P s.st s.freq_resp_list i).2
          ltsva_winlens := s.ltsva_winlens ++ [P.WINLEN_list.getD i 0]
          error := true }
    else
      { s with
        Fs := (bandFilt P s.st i).2.1
        sos := (bandFilt P s.st i).2.2
        sosfreqz_grids := s.sosfreqz_grids ++ [s.freq_resp_list]
        w_array := updateAt s.w_array i (bandWH P s.st s.freq_resp_list i).1
        error := true }
  else
    { s with
      Fs := (bandFilt P s.st i).2.1
      sos := (bandFilt P s.st i).2.2
      sosfreqz_grids := s.sosfreqz_grids ++ [s.freq_resp_list]
      error := true }

/-- The narrow-band loop over a list of band indices (the script runs
it over `range(nbands)`). -/
def runBands (P : Params F G Sig SOS Geo Raw StD C) (l : List ℕ)
    (s : PState G Sig SOS Geo C) : PState G Sig SOS Geo C :=
  l.foldl (fun s i => bandStep P i s) s

/-- Line 157: the broadband `filter_data` call; its second component is
the broadband sampling rate `Fs`, its third the broadband `sos`. -/
def broadFd (P : Params F G Sig SOS Geo Raw StD C) (st : Sig) :
    Sig × ℚ × SOS :=
  P.ext.filter_data st P.filter_type P.FMIN P.FMAX P.filter_order P.filter_ripple

/-- Lines 169-171: the shared evaluation grid `freq_resp_list`, built
once from the broadband `Fs`. -/
def broadGrid (P : Params F G Sig SOS Geo Raw StD C) (st : Sig) : G :=
  P.ext.mkGrid (broadFd P st).2.1

/-- Line 172: the broadband `sosfreqz` call `(w_broad, h_broad)`. -/
def broadWH (P : Params F G Sig SOS Geo Raw StD C) (st : Sig) :
    List C × List C :=
  P.ext.sosfreqz (broadFd P st).2.2 (broadGrid P st) (broadFd P st).2.1

/-- Lines 186-193: `vector_len` for this run. -/
def pipeCap (P : Params F G Sig SOS Geo Raw StD C) (st : Sig) : ℤ :=
  windowCapacity P.window_length P.WINOVER P.WINLEN P.WINLEN_X
    (P.ext.npts_of st) (broadFd P st).2.1

/-- State right before the narrow-band loop: geometry from line 149,
broadband `Fs`/`sos` from line 157, the grid from lines 169-171, the
`np.empty` aggregate arrays from lines 196-203 (rows of width
`vector_len`, respectively `len(w_broad)`/`len(h_broad)`, filled with
the unspecified allocation values `undef`/`undefC`), and the broadband
`ltsva`/`sosfreqz` calls (lines 158 and 172) already logged. -/
def initPState (P : Params F G Sig SOS Geo Raw StD C) (st : Sig)
    (latlist lonlist : List ℚ) (undef : ℚ) (undefC : C) :
    PState G Sig SOS Geo C :=
  { st := st
    rij := P.ext.getrij latlist lonlist
    freq_resp_list := broadGrid P st
    Fs := (broadFd P st).2.1
    sos := (broadFd P st).2.2
    vel_array := fun _ => List.replicate (pipeCap P st).toNat undef
    baz_array := fun _ => List.replicate (pipeCap P st).toNat undef
    mdccm_array := fun _ => List.replicate (pipeCap P st).toNat undef
    t_array := fun _ => List.replicate (pipeCap P st).toNat undef
    w_array := fun _ => List.replicate (broadWH P st).1.length undefC
    h_array := fun _ => List.replicate (broadWH P st).2.length undefC
    num_compute_list := []
    ltsva_winlens := [P.WINLEN]
    sosfreqz_grids := [broadGrid P st]
    error := false }

structure RunResult (G Sig SOS Geo Raw StD C : Type) where
  final : PState G Sig SOS Geo C
  vlen : ℤ
  broadband : Raw × Raw × Raw × Raw × StD × Raw
  w_broad : List C
  h_broad : List C
  printed_cores : ℕ

/-- The whole orchestration pipeline, lines 134-264 (excluding the
plotting sinks): geometry, broadband pass, grid construction, array
allocation, the `multiprocessing.cpu_count()` query (line 207, only
printed), and the narrow-band loop over `range(nbands)`. -/
def runPipeline (P : Params F G Sig SOS Geo Raw StD C) (st : Sig)
    (latlist lonlist : List ℚ) (undef : ℚ) (undefC : C) (cores : ℕ) :
    RunResult G Sig SOS Geo Raw StD C :=
  { final := runBands P (List.range P.nbands)
      (initPState P st latlist lonlist undef undefC)
    vlen := pipeCap P st
    broadband := P.ext.ltsva (broadFd P st).1 (P.ext.getrij latlist lonlist)
      P.WINLEN P.WINOVER P.ALPHA
    w_broad := (broadWH P st).1
    h_broad := (broadWH P st).2
    printed_cores := cores }

/-! ### Loop characterization -/

/-- Success conditions for band `i`: the two full-row response writes
need exact lengths and the four prefix writes need data no longer than
the row. -/
def Conds (P : Params F G Sig SOS Geo Raw StD C) (st : Sig) (rij : Geo)
    (g : G) (cap wlen hlen : ℕ) (i : ℕ) : Prop :=
  (bandWH P st g i).1.length = wlen ∧
  (bandWH P st g i).2.length = hlen ∧
  (velFloat P st rij i).length ≤ cap ∧
  (bazFloat P st rij i).length ≤ cap ∧
  (mdccmFloat P st rij i).length ≤ cap ∧
  (tFloat P st rij i).length ≤ cap

/-- Loop invariant: the shared inputs are unchanged, no error has
occurred, and every row keeps its allocated width. -/
def StateOK (st : Sig) (rij : Geo) (g : G) (cap wlen hlen : ℕ)
    (s : PState G Sig SOS Geo C) : Prop :=
  s.st = st ∧ s.rij = rij ∧ s.freq_resp_list = g ∧ s.error = false ∧
  (∀ j, (s.vel_array j).length = cap) ∧
  (∀ j, (s.baz_array j).length = cap) ∧
  (∀ j, (s.mdccm_array j).length = cap) ∧
  (∀ j, (s.t_array j).length = cap) ∧
  (∀ j, (s.w_array j).length = wlen) ∧
  (∀ j, (s.h_array j).length = hlen)

/-- The effect of a successful iteration for band `i`, expressed with
the canonical shared inputs. -/
def stepResult (P : Params F G Sig SOS Geo Raw StD C) (st : Sig) (rij : Geo)
    (g : G) (i : ℕ) (s : PState G Sig SOS Geo C) : PState G Sig SOS Geo C :=
  { s with
    Fs := (bandFilt P st i).2.1
    sos := (bandFilt P st i).2.2
    sosfreqz_grids := s.sosfreqz_grids ++ [g]
    w_array := updateAt s.w_array i (bandWH P st g i).1
    h_array := updateAt s.h_array i (bandWH P st g i).2
    ltsva_winlens := s.ltsva_winlens ++ [P.WINLEN_list.getD i 0]
    vel_array := updateAt s.vel_array i
      (writePrefix (s.vel_array i) (velFloat P st rij i))
    baz_array := updateAt s.baz_array i
      (writePrefix (s.baz_array i) (bazFloat P st rij i))
    mdccm_array := updateAt s.mdccm_array i
      (writePrefix (s.mdccm_array i) (mdccmFloat P st rij i))
    t_array := updateAt s.t_array i
      (writePrefix (s.t_array i) (tFloat P st rij i))
    num_compute_list := s.num_compute_list ++ [(velFloat P st rij i).length] }

theorem writePrefix_length {α : Type} (row xs : List α)
    (h : xs.length ≤ row.length) : (writePrefix row xs).length = row.length := by
  simp [writePrefix]
  omega

theorem writePrefix_idem {α : Type} (row xs : List α) :
    writePrefix (writePrefix row xs) xs = writePrefix row xs := by
  simp [writePrefix]

theorem writePrefix_take {α : Type} (row xs : List α) :
    (writePrefix row xs).take xs.length = xs := by
  simp [writePrefix]

theorem bandStep_stuck (P : Params F G Sig SOS Geo Raw StD C) (i : ℕ)
    (s : PState G Sig SOS Geo C) (h : s.error = true) : bandStep P i s = s := by
  simp [bandStep, h]

theorem bandStep_ok (P : Params F G Sig SOS Geo Raw StD C) {st : Sig}
    {rij : Geo} {g : G} {cap wlen hlen : ℕ} {i : ℕ}
    {s : PState G Sig SOS Geo C}
    (hok : StateOK st rij g cap wlen hlen s)
    (hc : Conds P st rij g cap wlen hlen i) :
    bandStep P i s = stepResult P st rij g i s := by
  obtain ⟨hst, hrij, hfr, herr, hv, hb, hm, ht, hw, hh⟩ := hok
  obtain ⟨c1, c2, c3, c4, c5, c6⟩ := hc
  unfold bandStep
  rw [hst, hrij, hfr, herr]
  rw [if_neg (by simp)]
  rw [if_pos (c1.trans (hw i).symm), if_pos (c2.trans (hh i).symm),
    if_pos (by rw [hv i]; exact c3), if_pos (by rw [hb i]; exact c4),
    if_pos (by rw [hm i]; exact c5), if_pos (by rw [ht i]; exact c6)]
  unfold stepResult
  rw [hst, hrij, hfr, herr]

theorem stepResult_ok (P : Params F G Sig SOS Geo Raw StD C) {st : Sig}
    {rij : Geo} {g : G} {cap wlen hlen : ℕ} {i : ℕ}
    {s : PState G Sig SOS Geo C}
    (hok : StateOK st rij g cap wlen hlen s)
    (hc : Conds P st rij g cap wlen hlen i) :
    StateOK st rij g cap wlen hlen (stepResult P st rij g i s) := by
  obtain ⟨hst, hrij, hfr, herr, hv, hb, hm, ht, hw, hh⟩ := hok
  obtain ⟨c1, c2, c3, c4, c5, c6⟩ := hc
  refine ⟨hst, hrij, hfr, herr, ?_, ?_, ?_, ?_, ?_, ?_⟩ <;> intro j <;>
    simp only [stepResult, updateAt]
  · split
    · rw [writePrefix_length _ _ (by rw [hv i]; exact c3)]
      exact hv i
    · exact hv j
  · split
    · rw [writePrefix_length _ _ (by rw [hb i]; exact c4)]
      exact hb i
    · exact hb j
  · split
    · rw [writePrefix_length _ _ (by rw [hm i]; exact c5)]
      exact hm i
    · exact hm j
  · split
    · rw [writePrefix_length _ _ (by rw [ht i]; exact c6)]
      exact ht i
    · exact ht j
  · split
    · exact c1
    · exact hw j
  · split
    · exact c2
    · exact hh j

theorem bandStep_fail (P : Params F G Sig SOS Geo Raw StD C) {st : Sig}
    {rij : Geo} {g : G} {cap wlen hlen : ℕ} {i : ℕ}
    {s : PState G Sig SOS Geo C}
    (hok : StateOK st rij g cap wlen hlen s)
    (hc : ¬ Conds P st rij g cap wlen hlen i) :
    (bandStep P i s).error = true := by
  obtain ⟨hst, hrij, hfr, herr, hv, hb, hm, ht, hw, hh⟩ := hok
  unfold bandStep
  rw [hst, hrij, hfr, herr]
  rw [if_neg (by simp)]
  by_cases c1 : (bandWH P st g i).1.length = wlen
  · rw [if_pos (c1.trans (hw i).symm)]
    by_cases c2 : (bandWH P st g i).2.length = hlen
    · rw [if_pos (c2.trans (hh i).symm)]
      by_cases c3 : (velFloat P st rij i).length ≤ cap
      · rw [if_pos (by rw [hv i]; exact c3)]
        by_cases c4 : (bazFloat P st rij i).length ≤ cap
        · rw [if_pos (by rw [hb i]; exact c4)]
          by_cases c5 : (mdccmFloat P st rij i).length ≤ cap
          · rw [if_pos (by rw [hm i]; exact c5)]
            by_cases c6 : (tFloat P st rij i).length ≤ cap
            · exact absurd ⟨c1, c2, c3, c4, c5, c6⟩ hc
            · rw [if_neg (by rw [ht i]; exact c6)]
          · rw [if_neg (by rw [hm i]; exact c5)]
        · rw [if_neg (by rw [hb i]; exact c4)]
      · rw [if_neg (by rw [hv i]; exact c3)]
    · rw [if_neg (fun hx => c2 (hx.trans (hh i)))]
  · rw [if_neg (fun hx => c1 (hx.trans (hw i)))]

theorem runBands_cons (P : Params F G Sig SOS Geo Raw StD C) (i : ℕ)
    (l : List ℕ) (s : PState G Sig SOS Geo C) :
    runBands P (i :: l) s = runBands P l (bandStep P i s) := rfl

theorem runBands_stuck (P : Params F G Sig SOS Geo Raw StD C) (l : List ℕ) :
    ∀ s : PState G Sig SOS Geo C, s.error = true → runBands P l s = s := by
  induction l with
  | nil => intro s _; rfl
  | cons i l ih =>
    intro s h
    rw [runBands_cons, bandStep_stuck P i s h, ih s h]

/-- Full characterization of a successful pass over the band indices
`l`: the invariant is preserved; the three logs grow by one entry per
band in order; and each of the six arrays' row `j` is rewritten exactly
when `j ∈ l` — with the band-`j` data, independent of the
iteration at which it was written — and untouched otherwise. -/
theorem runBands_char (P : Params F G Sig SOS Geo Raw StD C) (st : Sig)
    (rij : Geo) (g : G) (cap wlen hlen : ℕ) (l : List ℕ) :
    ∀ s : PState G Sig SOS Geo C,
      StateOK st rij g cap wlen hlen s →
      (∀ i ∈ l, Conds P st rij g cap wlen hlen i) →
      StateOK st rij g cap wlen hlen (runBands P l s) ∧
      (runBands P l s).num_compute_list =
        s.num_compute_list ++ l.map (fun i => (velFloat P st rij i).length) ∧
      (runBands P l s).ltsva_winlens =
        s.ltsva_winlens ++ l.map (fun i => P.WINLEN_list.getD i 0) ∧
      (runBands P l s).sosfreqz_grids =
        s.sosfreqz_grids ++ l.map (fun _ => g) ∧
      (∀ j, (runBands P l s).vel_array j =
        if j ∈ l then writePrefix (s.vel_array j) (velFloat P st rij j)
        else s.vel_array j) ∧
      (∀ j, (runBands P l s).baz_array j =
        if j ∈ l then writePrefix (s.baz_array j) (bazFloat P st rij j)
        else s.baz_array j) ∧
      (∀ j, (runBands P l s).mdccm_array j =
        if j ∈ l then writePrefix (s.mdccm_array j) (mdccmFloat P st rij j)
        else s.mdccm_array j) ∧
      (∀ j, (runBands P l s).t_array j =
        if j ∈ l then writePrefix (s.t_array j) (tFloat P st rij j)
        else s.t_array j) ∧
      (∀ j, (runBands P l s).w_array j =
        if j ∈ l then (bandWH P st g j).1 else s.w_array j) ∧
      (∀ j, (runBands P l s).h_array j =
        if j ∈ l then (bandWH P st g j).2 else s.h_array j) := by
  induction l with
  | nil =>
    intro s hok _
    refine ⟨hok, by simp [runBands], by simp [runBands], by simp [runBands],
      ?_, ?_, ?_, ?_, ?_, ?_⟩ <;> intro j <;> simp [runBands]
  | cons i l ih =>
    intro s hok hc
    have hci := hc i (List.mem_cons_self i l)
    have hcl : ∀ x ∈ l, Conds P st rij g cap wlen hlen x :=
      fun x hx => hc x (List.mem_cons_of_mem i hx)
    have hstep : bandStep P i s = stepResult P st rij g i s := bandStep_ok P hok hci
    have hok2 := stepResult_ok P hok hci
    obtain ⟨Hok, Hnum, Hwin, Hgrid, Hvel, Hbaz, Hmd, Htt, Hw, Hh⟩ :=
      ih (stepResult P st rij g i s) hok2 hcl
    rw [runBands_cons, hstep]
    refine ⟨Hok, ?_, ?_, ?_, ?_, ?_, ?_, ?_, ?_, ?_⟩
    · rw [Hnum]
      simp [stepResult]
    · rw [Hwin]
      simp [stepResult]
    · rw [Hgrid]
      simp [stepResult]
    · intro j
      rw [Hvel j]
      by_cases hji : j = i
      · subst hji
        by_cases hjl : j ∈ l <;>
          simp [hjl, stepResult, updateAt, writePrefix_idem]
      · by_cases hjl : j ∈ l <;>
          simp [hjl, hji, stepResult, updateAt]
    · intro j
      rw [Hbaz j]
      by_cases hji : j = i
      · subst hji
        by_cases hjl : j ∈ l <;>
          simp [hjl, stepResult, updateAt, writePrefix_idem]
      · by_cases hjl : j ∈ l <;>
          simp [hjl, hji, stepResult, updateAt]
    · intro j
      rw [Hmd j]
      by_cases hji : j = i
      · subst hji
        by_cases hjl : j ∈ l <;>
          simp [hjl, stepResult, updateAt, writePrefix_idem]
      · by_cases hjl : j ∈ l <;>
          simp [hjl, hji, stepResult, updateAt]
    · intro j
      rw [Htt j]
      by_cases hji : j = i
      · subst hji
        by_cases hjl : j ∈ l <;>
          simp [hjl, stepResult, updateAt, writePrefix_idem]
      · by_cases hjl : j ∈ l <;>
          simp [hjl, hji, stepResult, updateAt]
    · intro j
      rw [Hw j]
      by_cases hji : j = i
      · subst hji
        by_cases hjl : j ∈ l <;> simp [hjl, stepResult, updateAt]
      · by_cases hjl : j ∈ l <;> simp [hjl, hji, stepResult, updateAt]
    · intro j
      rw [Hh j]
      by_cases hji : j = i
      · subst hji
        by_cases hjl : j ∈ l <;> simp [hjl, stepResult, updateAt]
      · by_cases hjl : j ∈ l <;> simp [hjl, hji, stepResult, updateAt]

theorem runBands_fail (P : Params F G Sig SOS Geo Raw StD C) (st : Sig)
    (rij : Geo) (g : G) (cap wlen hlen : ℕ) (l : List ℕ) :
    ∀ s : PState G Sig SOS Geo C,
      StateOK st rij g cap wlen hlen s →
      (¬ ∀ i ∈ l, Conds P st rij g cap wlen hlen i) →
      (runBands P l s).error = true := by
  induction l with
  | nil =>
    intro s _ hc
    exact absurd (by intro i hi; cases hi) hc
  | cons i l ih =>
    intro s hok hc
    by_cases hci : Conds P st rij g cap wlen hlen i
    · have hcl : ¬ ∀ x ∈ l, Conds P st rij g cap wlen hlen x := by
        intro hf
        refine hc ?_
        intro x hx
        rcases List.mem_cons.mp hx with h | h
        · rw [h]
          exact hci
        · exact hf x h
      rw [runBands_cons, bandStep_ok P hok hci]
      exact ih _ (stepResult_ok P hok hci) hcl
    · have herr : (bandStep P i s).error = true := bandStep_fail P hok hci
      rw [runBands_cons, runBands_stuck P l _ herr]
      exact herr

theorem runBands_error_iff (P : Params F G Sig SOS Geo Raw StD C) (st : Sig)
    (rij : Geo) (g : G) (cap wlen hlen : ℕ) (l : List ℕ)
    (s : PState G Sig SOS Geo C) (hok : StateOK st rij g cap wlen hlen s) :
    (runBands P l s).error = false ↔
      (∀ i ∈ l, Conds P st rij g cap wlen hlen i) := by
  constructor
  · intro h
    by_contra hc
    rw [runBands_fail P st rij g cap wlen hlen l s hok hc] at h
    cases h
  · intro hc
    exact (runBands_char P st rij g cap wlen hlen l s hok hc).1.2.2.2.1

/-- State right before the loop satisfies the invariant. -/
theorem initPState_ok (P : Params F G Sig SOS Geo Raw StD C) (st : Sig)
    (latlist lonlist : List ℚ) (undef : ℚ) (undefC : C) :
    StateOK st (P.ext.getrij latlist lonlist) (broadGrid P st)
      (pipeCap P st).toNat (broadWH P st).1.length (broadWH P st).2.length
      (initPState P st latlist lonlist undef undefC) := by
  refine ⟨rfl, rfl, rfl, rfl, ?_, ?_, ?_, ?_, ?_, ?_⟩ <;> intro j <;>
    simp [initPState]

/-- A non-failing iteration did not start in a failed state and all six
of its numpy assignments were length-compatible. -/
theorem bandStep_success_conds (P : Params F G Sig SOS Geo Raw StD C)
    (i : ℕ) (s : PState G Sig SOS Geo C)
    (h : (bandStep P i s).error = false) :
    s.error = false ∧
    (bandWH P s.st s.freq_resp_list i).1.length = (s.w_array i).length ∧
    (bandWH P s.st s.freq_resp_list i).2.length = (s.h_array i).length ∧
    (velFloat P s.st s.rij i).length ≤ (s.vel_array i).length ∧
    (bazFloat P s.st s.rij i).length ≤ (s.baz_array i).length ∧
    (mdccmFloat P s.st s.rij i).length ≤ (s.mdccm_array i).length ∧
    (tFloat P s.st s.rij i).length ≤ (s.t_array i).length := by
  by_cases herr : s.error = true
  · rw [bandStep_stuck P i s herr, herr] at h
    cases h
  · have herr2 : s.error = false := by
      cases hs : s.error
      · rfl
      · exact absurd hs herr
    unfold bandStep at h
    rw [herr2, if_neg (by simp)] at h
    split_ifs at h with c1 c2 c3 c4 c5 c6
    exact ⟨herr2, c1, c2, c3, c4, c5, c6⟩

/-- C8: a non-failing iteration of the narrow-band loop for band `i`
writes exactly row `i` of the six preallocated arrays (full rows for
`w_array`/`h_array`, a left-aligned prefix for the four aggregate
arrays) and appends exactly one element, `len(vel_float)`, to
`num_compute_list`; every other row of those arrays, and the shared
waveform collection `st`, geometry `rij` and frequency grid
`freq_resp_list`, are left unchanged — hence distinct iterations write
pairwise disjoint rows. -/
theorem C8_band_iteration_frame (P : Params F G Sig SOS Geo Raw StD C)
    (i : ℕ) (s : PState G Sig SOS Geo C)
    (h : (bandStep P i s).error = false) :
    (bandStep P i s).st = s.st ∧
    (bandStep P i s).rij = s.rij ∧
    (bandStep P i s).freq_resp_list = s.freq_resp_list ∧
    (bandStep P i s).num_compute_list =
      s.num_compute_list ++ [(velFloat P s.st s.rij i).length] ∧
    (bandStep P i s).vel_array i =
      writePrefix (s.vel_array i) (velFloat P s.st s.rij i) ∧
    (bandStep P i s).baz_array i =
      writePrefix (s.baz_array i) (bazFloat P s.st s.rij i) ∧
    (bandStep P i s).mdccm_array i =
      writePrefix (s.mdccm_array i) (mdccmFloat P s.st s.rij i) ∧
    (bandStep P i s).t_array i =
      writePrefix (s.t_array i) (tFloat P s.st s.rij i) ∧
    (bandStep P i s).w_array i = (bandWH P s.st s.freq_resp_list i).1 ∧
    (bandStep P i s).h_array i = (bandWH P s.st s.freq_resp_list i).2 ∧
    (∀ j, j ≠ i → (bandStep P i s).vel_array j = s.vel_array j) ∧
    (∀ j, j ≠ i → (bandStep P i s).baz_array j = s.baz_array j) ∧
    (∀ j, j ≠ i → (bandStep P i s).mdccm_array j = s.mdccm_array j) ∧
    (∀ j, j ≠ i → (bandStep P i s).t_array j = s.t_array j) ∧
    (∀ j, j ≠ i → (bandStep P i s).w_array j = s.w_array j) ∧
    (∀ j, j ≠ i → (bandStep P i s).h_array j = s.h_array j) := by
  obtain ⟨herr2, c1, c2, c3, c4, c5, c6⟩ := bandStep_success_conds P i s h
  unfold bandStep
  rw [herr2, if_neg (by simp), if_pos c1, if_pos c2, if_pos c3, if_pos c4,
    if_pos c5, if_pos c6]
  refine ⟨rfl, rfl, rfl, rfl, ?_, ?_, ?_, ?_, ?_, ?_, ?_, ?_, ?_, ?_, ?_, ?_⟩ <;>
    first
    | (intro j hj; simp [updateAt, hj])
    | simp [updateAt]

/-- C1: in a non-failing run, every row of the four aggregate arrays
has exactly `vector_len` columns, where `vector_len` is computed from
the shortest configured window length (`WINLEN_X` in adaptive mode,
`WINLEN` in constant mode), the `(1 - WINOVER)`-fraction sample
increment, the full broadband record length and the broadband sampling
rate (`windowCapacity`); `num_compute_list` has one entry per band and
every entry is at most that capacity. -/
theorem C1_aggregate_capacity (P : Params F G Sig SOS Geo Raw StD C)
    (st : Sig) (latlist lonlist : List ℚ) (undef : ℚ) (undefC : C) (cores : ℕ)
    (h : (runPipeline P st latlist lonlist undef undefC cores).final.error = false) :
    (runPipeline P st latlist lonlist undef undefC cores).vlen =
      windowCapacity P.window_length P.WINOVER P.WINLEN P.WINLEN_X
        (P.ext.npts_of st)
        (P.ext.filter_data st P.filter_type P.FMIN P.FMAX P.filter_order
          P.filter_ripple).2.1 ∧
    (∀ j, ((runPipeline P st latlist lonlist undef undefC cores).final.vel_array j).length =
      (runPipeline P st latlist lonlist undef undefC cores).vlen.toNat) ∧
    (∀ j, ((runPipeline P st latlist lonlist undef undefC cores).final.baz_array j).length =
      (runPipeline P st latlist lonlist undef undefC cores).vlen.toNat) ∧
    (∀ j, ((runPipeline P st latlist lonlist undef undefC cores).final.mdccm_array j).length =
      (runPipeline P st latlist lonlist undef undefC cores).vlen.toNat) ∧
    (∀ j, ((runPipeline P st latlist lonlist undef undefC cores).final.t_array j).length =
      (runPipeline P st latlist lonlist undef undefC cores).vlen.toNat) ∧
    ((runPipeline P st latlist lonlist undef undefC cores).final.num_compute_list).length =
      P.nbands ∧
    (∀ x ∈ (runPipeline P st latlist lonlist undef undefC cores).final.num_compute_list,
      x ≤ (runPipeline P st latlist lonlist undef undefC cores).vlen.toNat) := by
  have hfe : (runPipeline P st latlist lonlist undef undefC cores).final =
      runBands P (List.range P.nbands)
        (initPState P st latlist lonlist undef undefC) := rfl
  have hve : (runPipeline P st latlist lonlist undef undefC cores).vlen =
      pipeCap P st := rfl
  have hok := initPState_ok P st latlist lonlist undef undefC
  rw [hfe] at h
  have hc := (runBands_error_iff P st (P.ext.getrij latlist lonlist)
    (broadGrid P st) (pipeCap P st).toNat (broadWH P st).1.length
    (broadWH P st).2.length (List.range P.nbands) _ hok).mp h
  obtain ⟨Hok, Hnum, _, _, _, _, _, _, _, _⟩ :=
    runBands_char P st (P.ext.getrij latlist lonlist) (broadGrid P st)
      (pipeCap P st).toNat (broadWH P st).1.length (broadWH P st).2.length
      (List.range P.nbands) _ hok hc
  rw [hfe, hve]
  refine ⟨rfl, Hok.2.2.2.2.1, Hok.2.2.2.2.2.1, Hok.2.2.2.2.2.2.1,
    Hok.2.2.2.2.2.2.2.1, ?_, ?_⟩
  · rw [Hnum]
    simp [initPState]
  · intro x hx
    rw [Hnum] at hx
    simp only [initPState, List.nil_append, List.mem_map, List.mem_range] at hx
    obtain ⟨j, hj, rfl⟩ := hx
    exact (hc j (List.mem_range.mpr hj)).2.2.1

/-- C5: in a non-failing run, the sequence of window-length arguments
passed to the beamformer `ltsva` is exactly `WINLEN` for the broadband
pass (first call, whatever `window_length` mode is configured) followed
by `WINLEN_list[i]` for band `i` in the narrow-band loop. -/
theorem C5_beamformer_window_lengths (P : Params F G Sig SOS Geo Raw StD C)
    (st : Sig) (latlist lonlist : List ℚ) (undef : ℚ) (undefC : C) (cores : ℕ)
    (h : (runPipeline P st latlist lonlist undef undefC cores).final.error = false) :
    (runPipeline P st latlist lonlist undef undefC cores).final.ltsva_winlens =
      P.WINLEN ::
        (List.range P.nbands).map (fun i => P.WINLEN_list.getD i 0) := by
  have hfe : (runPipeline P st latlist lonlist undef undefC cores).final =
      runBands P (List.range P.nbands)
        (initPState P st latlist lonlist undef undefC) := rfl
  have hok := initPState_ok P st latlist lonlist undef undefC
  rw [hfe] at h
  have hc := (runBands_error_iff P st (P.ext.getrij latlist lonlist)
    (broadGrid P st) (pipeCap P st).toNat (broadWH P st).1.length
    (broadWH P st).2.length (List.range P.nbands) _ hok).mp h
  obtain ⟨_, _, Hwin, _, _, _, _, _, _, _⟩ :=
    runBands_char P st (P.ext.getrij latlist lonlist) (broadGrid P st)
      (pipeCap P st).toNat (broadWH P st).1.length (broadWH P st).2.length
      (List.range P.nbands) _ hok hc
  rw [hfe, Hwin]
  simp [initPState]

/-- C9 (amended): two executions of the pipeline with the same waveform
collection, configuration and external filter/beamformer behaviour —
but possibly different `np.empty` allocation contents
(`u1`/`uC1` vs `u2`/`uC2`) and a different reported core count — fail
or succeed together, and on success produce identical
`num_compute_list`, identical capacity, and aggregate arrays identical
throughout the valid region (the first `num_compute_list[j]` columns of
each row `j`); the trailing columns are uninitialized allocation
contents and need not coincide.  The hypothesis `hsame` is the data
model's invariant that the four per-band sequences have equal lengths. -/
theorem C9_amended_determinism (P : Params F G Sig SOS Geo Raw StD C)
    (st : Sig) (latlist lonlist : List ℚ) (u1 u2 : ℚ) (uC1 uC2 : C)
    (c1 c2 : ℕ)
    (hsame : ∀ i,
      (bazFloat P st (P.ext.getrij latlist lonlist) i).length =
        (velFloat P st (P.ext.getrij latlist lonlist) i).length ∧
      (mdccmFloat P st (P.ext.getrij latlist lonlist) i).length =
        (velFloat P st (P.ext.getrij latlist lonlist) i).length ∧
      (tFloat P st (P.ext.getrij latlist lonlist) i).length =
        (velFloat P st (P.ext.getrij latlist lonlist) i).length) :
    ((runPipeline P st latlist lonlist u1 uC1 c1).final.error =
      (runPipeline P st latlist lonlist u2 uC2 c2).final.error) ∧
    ((runPipeline P st latlist lonlist u1 uC1 c1).final.error = false →
      (runPipeline P st latlist lonlist u1 uC1 c1).final.num_compute_list =
        (runPipeline P st latlist lonlist u2 uC2 c2).final.num_compute_list ∧
      (runPipeline P st latlist lonlist u1 uC1 c1).vlen =
        (runPipeline P st latlist lonlist u2 uC2 c2).vlen ∧
      (∀ j, ((runPipeline P st latlist lonlist u1 uC1 c1).final.vel_array j).take
          (((runPipeline P st latlist lonlist u1 uC1 c1).final.num_compute_list).getD j 0) =
        ((runPipeline P st latlist lonlist u2 uC2 c2).final.vel_array j).take
          (((runPipeline P st latlist lonlist u2 uC2 c2).final.num_compute_list).getD j 0)) ∧
      (∀ j, ((runPipeline P st latlist lonlist u1 uC1 c1).final.baz_array j).take
          (((runPipeline P st latlist lonlist u1 uC1 c1).final.num_compute_list).getD j 0) =
        ((runPipeline P st latlist lonlist u2 uC2 c2).final.baz_array j).take
          (((runPipeline P st latlist lonlist u2 uC2 c2).final.num_compute_list).getD j 0)) ∧
      (∀ j, ((runPipeline P st latlist lonlist u1 uC1 c1).final.mdccm_array j).take
          (((runPipeline P st latlist lonlist u1 uC1 c1).final.num_compute_list).getD j 0) =
        ((runPipeline P st latlist lonlist u2 uC2 c2).final.mdccm_array j).take
          (((runPipeline P st latlist lonlist u2 uC2 c2).final.num_compute_list).getD j 0)) ∧
      (∀ j, ((runPipeline P st latlist lonlist u1 uC1 c1).final.t_array j).take
          (((runPipeline P st latlist lonlist u1 uC1 c1).final.num_compute_list).getD j 0) =
        ((runPipeline P st latlist lonlist u2 uC2 c2).final.t_array j).take
          (((runPipeline P st latlist lonlist u2 uC2 c2).final.num_compute_list).getD j 0))) := by
  have hfe1 : (runPipeline P st latlist lonlist u1 uC1 c1).final =
      runBands P (List.range P.nbands)
        (initPState P st latlist lonlist u1 uC1) := rfl
  have hfe2 : (runPipeline P st latlist lonlist u2 uC2 c2).final =
      runBands P (List.range P.nbands)
        (initPState P st latlist lonlist u2 uC2) := rfl
  have hok1 := initPState_ok P st latlist lonlist u1 uC1
  have hok2 := initPState_ok P st latlist lonlist u2 uC2
  have hiff1 := runBands_error_iff P st (P.ext.getrij latlist lonlist)
    (broadGrid P st) (pipeCap P st).toNat (broadWH P st).1.length
    (broadWH P st).2.length (List.range P.nbands) _ hok1
  have hiff2 := runBands_error_iff P st (P.ext.getrij latlist lonlist)
    (broadGrid P st) (pipeCap P st).toNat (broadWH P st).1.length
    (broadWH P st).2.length (List.range P.nbands) _ hok2
  constructor
  · rw [hfe1, hfe2]
    cases hb1 : (runBands P (List.range P.nbands)
        (initPState P st latlist lonlist u1 uC1)).error
    · cases hb2 : (runBands P (List.range P.nbands)
          (initPState P st latlist lonlist u2 uC2)).error
      · rfl
      · have h2 := hiff2.mpr (hiff1.mp hb1)
        rw [hb2] at h2
        exact h2.symm
    · cases hb2 : (runBands P (List.range P.nbands)
          (initPState P st latlist lonlist u2 uC2)).error
      · have h1 := hiff1.mpr (hiff2.mp hb2)
        rw [hb1] at h1
        exact h1
      · rfl
  · intro h
    rw [hfe1] at h
    have hc := hiff1.mp h
    obtain ⟨_, Hnum1, _, _, Hvel1, Hbaz1, Hmd1, Htt1, _, _⟩ :=
      runBands_char P st (P.ext.getrij latlist lonlist) (broadGrid P st)
        (pipeCap P st).toNat (broadWH P st).1.length (broadWH P st).2.length
        (List.range P.nbands) _ hok1 hc
    obtain ⟨_, Hnum2, _, _, Hvel2, Hbaz2, Hmd2, Htt2, _, _⟩ :=
      runBands_char P st (P.ext.getrij latlist lonlist) (broadGrid P st)
        (pipeCap P st).toNat (broadWH P st).1.length (broadWH P st).2.length
        (List.range P.nbands) _ hok2 hc
    have hnumeq : (runPipeline P st latlist lonlist u1 uC1 c1).final.num_compute_list =
        (runPipeline P st latlist lonlist u2 uC2 c2).final.num_compute_list := by
      rw [hfe1, hfe2, Hnum1, Hnum2]
      simp [initPState]
    have hgetD : ∀ j, j < P.nbands →
        ((runPipeline P st latlist lonlist u1 uC1 c1).final.num_compute_list).getD j 0 =
          (velFloat P st (P.ext.getrij latlist lonlist) j).length := by
      intro j hj
      rw [hfe1, Hnum1]
      simp only [initPState, List.nil_append]
      exact getD_range_map _ _ hj
    have hgetD0 : ∀ j, P.nbands ≤ j →
        ((runPipeline P st latlist lonlist u1 uC1 c1).final.num_compute_list).getD j 0 = 0 := by
      intro j hj
      rw [hfe1, Hnum1]
      simp only [initPState, List.nil_append]
      exact List.getD_eq_default _ _ (by simpa using hj)
    refine ⟨hnumeq, rfl, ?_, ?_, ?_, ?_⟩
    · intro j
      rw [← hnumeq]
      by_cases hj : j < P.nbands
      · rw [hgetD j hj, hfe1, hfe2, Hvel1 j, Hvel2 j,
          if_pos (List.mem_range.mpr hj), if_pos (List.mem_range.mpr hj)]
        simp only [initPState]
        rw [writePrefix_take, writePrefix_take]
      · rw [hgetD0 j (Nat.le_of_not_lt hj)]
        simp
    · intro j
      rw [← hnumeq]
      by_cases hj : j < P.nbands
      · rw [hgetD j hj, hfe1, hfe2, Hbaz1 j, Hbaz2 j,
          if_pos (List.mem_range.mpr hj), if_pos (List.mem_range.mpr hj)]
        simp only [initPState]
        rw [← (hsame j).1, writePrefix_take, writePrefix_take]
      · rw [hgetD0 j (Nat.le_of_not_lt hj)]
        simp
    · intro j
      rw [← hnumeq]
      by_cases hj : j < P.nbands
      · rw [hgetD j hj, hfe1, hfe2, Hmd1 j, Hmd2 j,
          if_pos (List.mem_range.mpr hj), if_pos (List.mem_range.mpr hj)]
        simp only [initPState]
        rw [← (hsame j).2.1, writePrefix_take, writePrefix_take]
      · rw [hgetD0 j (Nat.le_of_not_lt hj)]
        simp
    · intro j
      rw [← hnumeq]
      by_cases hj : j < P.nbands
      · rw [hgetD j hj, hfe1, hfe2, Htt1 j, Htt2 j,
          if_pos (List.mem_range.mpr hj), if_pos (List.mem_range.mpr hj)]
        simp only [initPState]
        rw [← (hsame j).2.2, writePrefix_take, writePrefix_take]
      · rw [hgetD0 j (Nat.le_of_not_lt hj)]
        simp

/-- Entry `k` of `np.logspace(a, b, num)`: base-10 exponential of the
`k`-th of `num` points evenly spaced from `a` to `b` (increment
`(b - a)/(num - 1)`). -/
noncomputable def logspaceEntry (a b : ℝ) (num k : ℕ) : ℝ :=
  (10 : ℝ) ^ (a + k * ((b - a) / ((num : ℝ) - 1)))

/-- `np.logspace(a, b, num = num)`. -/
noncomputable def np_logspace (a b : ℝ) (num : ℕ) : List ℝ :=
  (List.range num).map (logspaceEntry a b num)

/-- Lines 169-171: `FMINL = math.log(0.01, 10)`,
`FMAXL = math.log(Fs/2, 10)`,
`freq_resp_list = np.logspace(FMINL, FMAXL, num = 1000)`. -/
noncomputable def scriptGrid (Fs : ℚ) : List ℝ :=
  np_logspace (Real.logb 10 0.01) (Real.logb 10 ((Fs : ℝ) / 2)) 1000

theorem logspaceEntry_succ (a b : ℝ) (num k : ℕ) :
    logspaceEntry a b num (k + 1) =
      logspaceEntry a b num k * (10 : ℝ) ^ ((b - a) / ((num : ℝ) - 1)) := by
  unfold logspaceEntry
  rw [← Real.rpow_add (by norm_num : (0:ℝ) < 10)]
  congr 1
  push_cast
  ring

/-- C7: with the grid builder as in the script (1000 points log-spaced
from 0.01 Hz to the broadband Nyquist frequency `Fs/2`), a non-failing
run passes one and the same grid to every `sosfreqz` call: the
broadband call and all `nbands` per-band calls.  The grid has 1000
entries, starts at 0.01, ends at `Fs/2`, and consecutive entries have
the constant ratio `10 ^ ((log10 (Fs/2) - log10 0.01) / 999)`. -/
theorem C7_shared_response_grid {F Sig SOS Geo Raw StD C : Type}
    (P : Params F (List ℝ) Sig SOS Geo Raw StD C) (st : Sig)
    (latlist lonlist : List ℚ) (undef : ℚ) (undefC : C) (cores : ℕ)
    (hG : P.ext.mkGrid = scriptGrid)
    (h : (runPipeline P st latlist lonlist undef undefC cores).final.error = false)
    (hFs : 0 < (broadFd P st).2.1) :
    (runPipeline P st latlist lonlist undef undefC cores).final.sosfreqz_grids =
      List.replicate (P.nbands + 1) (scriptGrid (broadFd P st).2.1) ∧
    (scriptGrid (broadFd P st).2.1).length = 1000 ∧
    (scriptGrid (broadFd P st).2.1).getD 0 0 = 0.01 ∧
    (scriptGrid (broadFd P st).2.1).getD 999 0 =
      (((broadFd P st).2.1 : ℝ)) / 2 ∧
    (∀ k, k < 999 →
      (scriptGrid (broadFd P st).2.1).getD (k + 1) 0 =
        (scriptGrid (broadFd P st).2.1).getD k 0 *
          (10 : ℝ) ^ ((Real.logb 10 (((broadFd P st).2.1 : ℝ) / 2) -
            Real.logb 10 0.01) / 999)) := by
  have hFsR : (0 : ℝ) < ((broadFd P st).2.1 : ℝ) / 2 := by
    have : (0 : ℝ) < ((broadFd P st).2.1 : ℝ) := by exact_mod_cast hFs
    linarith
  have hfe : (runPipeline P st latlist lonlist undef undefC cores).final =
      runBands P (List.range P.nbands)
        (initPState P st latlist lonlist undef undefC) := rfl
  have hok := initPState_ok P st latlist lonlist undef undefC
  rw [hfe] at h
  have hc := (runBands_error_iff P st (P.ext.getrij latlist lonlist)
    (broadGrid P st) (pipeCap P st).toNat (broadWH P st).1.length
    (broadWH P st).2.length (List.range P.nbands) _ hok).mp h
  obtain ⟨_, _, _, Hgrid, _, _, _, _, _, _⟩ :=
    runBands_char P st (P.ext.getrij latlist lonlist) (broadGrid P st)
      (pipeCap P st).toNat (broadWH P st).1.length (broadWH P st).2.length
      (List.range P.nbands) _ hok hc
  have hbg : broadGrid P st = scriptGrid (broadFd P st).2.1 := by
    unfold broadGrid
    rw [hG]
  refine ⟨?_, ?_, ?_, ?_, ?_⟩
  · rw [hfe, Hgrid]
    simp only [initPState, List.map_const', List.length_range]
    rw [hbg, List.replicate_succ, List.singleton_append]
  · simp [scriptGrid, np_logspace]
  · unfold scriptGrid np_logspace
    rw [getD_range_map _ _ (by omega)]
    unfold logspaceEntry
    rw [Nat.cast_zero, zero_mul, add_zero]
    exact Real.rpow_logb (by norm_num) (by norm_num) (by norm_num)
  · unfold scriptGrid np_logspace
    rw [getD_range_map _ _ (by omega)]
    unfold logspaceEntry
    have he : Real.logb 10 0.01 +
        ((999 : ℕ) : ℝ) * ((Real.logb 10 (((broadFd P st).2.1 : ℝ) / 2) -
          Real.logb 10 0.01) / (((1000 : ℕ) : ℝ) - 1)) =
        Real.logb 10 (((broadFd P st).2.1 : ℝ) / 2) := by
      have h9 : (((1000 : ℕ) : ℝ) - 1) = 999 := by norm_num
      rw [h9]
      have : ((999 : ℕ) : ℝ) = 999 := by norm_num
      rw [this, mul_div_cancel₀ _ (by norm_num : (999 : ℝ) ≠ 0)]
      ring
    rw [he]
    exact Real.rpow_logb (by norm_num) (by norm_num) hFsR
  · intro k hk
    unfold scriptGrid np_logspace
    rw [getD_range_map _ _ (by omega), getD_range_map _ _ (by omega),
      logspaceEntry_succ]
    congr 2
    norm_num

/-- A concrete instantiation of the external interfaces (trivial
signals and geometry, beamformer returning empty sequences, sampling
rate 1 Hz, an 8-sample record) used to exercise the pipeline theorems
on explicit inputs. -/
def exampleExt : Ext ℚ Unit Unit Unit Unit Unit Unit ℚ :=
  { filter_data := fun _ _ _ _ _ _ => ((), 1, ())
    sosfreqz := fun _ _ _ => ([], [])
    ltsva := fun _ _ _ _ _ => ((), (), (), (), (), ())
    make_float := fun _ => []
    getrij := fun _ _ => ()
    npts_of := fun _ => 8
    mkGrid := fun _ => () }

/-- A concrete configuration: 1 band, adaptive windows, 50% overlap,
`WINLEN = 4`, `WINLEN_X = 2`, so `sampinc = 1`, `nits = 7` and
`vector_len = 7`. -/
def exampleParams : Params ℚ Unit Unit Unit Unit Unit Unit ℚ :=
  { ext := exampleExt
    filter_type := "cheby1"
    FMIN := 7/100
    FMAX := 5
    filter_order := 2
    filter_ripple := 1/100
    WINOVER := 1/2
    window_length := .adaptive
    WINLEN := 4
    WINLEN_X := 2
    ALPHA := 1
    nbands := 1
    freqlist := [7/100, 5]
    WINLEN_list := [2] }

/-- The concrete external interfaces with the script's real grid
builder attached (for exercising the shared-grid theorem). -/
noncomputable def exampleExtGrid : Ext ℚ (List ℝ) Unit Unit Unit Unit Unit ℚ :=
  { filter_data := fun _ _ _ _ _ _ => ((), 1, ())
    sosfreqz := fun _ _ _ => ([], [])
    ltsva := fun _ _ _ _ _ => ((), (), (), (), (), ())
    make_float := fun _ => []
    getrij := fun _ _ => ()
    npts_of := fun _ => 8
    mkGrid := scriptGrid }

/-- The concrete configuration paired with the real grid builder. -/
noncomputable def exampleParamsGrid : Params ℚ (List ℝ) Unit Unit Unit Unit Unit ℚ :=
  { ext := exampleExtGrid
    filter_type := "cheby1"
    FMIN := 7/100
    FMAX := 5
    filter_order := 2
    filter_ripple := 1/100
    WINOVER := 1/2
    window_length := .adaptive
    WINLEN := 4
    WINLEN_X := 2
    ALPHA := 1
    nbands := 1
    freqlist := [7/100, 5]
    WINLEN_list := [2] }

/-- Witness for C7 at the concrete instantiation with the script's
grid builder (`Fs = 1`). -/
theorem C7_shared_response_grid_witness :
    (exampleParamsGrid.ext.mkGrid = scriptGrid) ∧
    ((runPipeline exampleParamsGrid () [] [] 0 0 5).final.error = false) ∧
    (0 < (broadFd exampleParamsGrid ()).2.1) ∧
    ((runPipeline exampleParamsGrid () [] [] 0 0 5).final.sosfreqz_grids =
        List.replicate (exampleParamsGrid.nbands + 1)
          (scriptGrid (broadFd exampleParamsGrid ()).2.1) ∧
      (scriptGrid (broadFd exampleParamsGrid ()).2.1).length = 1000 ∧
      (scriptGrid (broadFd exampleParamsGrid ()).2.1).getD 0 0 = 0.01 ∧
      (scriptGrid (broadFd exampleParamsGrid ()).2.1).getD 999 0 =
        (((broadFd exampleParamsGrid ()).2.1 : ℝ)) / 2 ∧
      (∀ k, k < 999 →
        (scriptGrid (broadFd exampleParamsGrid ()).2.1).getD (k + 1) 0 =
          (scriptGrid (broadFd exampleParamsGrid ()).2.1).getD k 0 *
            (10 : ℝ) ^ ((Real.logb 10
                (((broadFd exampleParamsGrid ()).2.1 : ℝ) / 2) -
              Real.logb 10 0.01) / 999))) :=
  ⟨rfl, by with_unfolding_all decide, by with_unfolding_all decide,
   C7_shared_response_grid exampleParamsGrid () [] [] 0 0 5 rfl
     (by with_unfolding_all decide) (by with_unfolding_all decide)⟩

/-- C9 counterexample: with the waveform collection, configuration and
the external filter and beamformer behaviour all fixed, two executions
that differ only in the contents `np.empty` happened to leave in the
aggregate arrays (`0` vs `1`) produce the same `num_compute_list` but
different `vel_array` contents (in the never-written trailing columns),
so the arrays are not identical as the claim states. -/
theorem C9_counterexample_uninitialized_columns :
    (runPipeline exampleParams () [] [] 0 0 5).final.num_compute_list =
      (runPipeline exampleParams () [] [] 1 0 5).final.num_compute_list ∧
    (runPipeline exampleParams () [] [] 0 0 5).final.vel_array 0 ≠
      (runPipeline exampleParams () [] [] 1 0 5).final.vel_array 0 := by
  with_unfolding_all decide

/-- Witness for the amended C9 at the concrete instantiation (allocation
fills 0 vs 1, reported core counts 5 vs 6). -/
theorem C9_amended_determinism_witness :
    ((runPipeline exampleParams () [] [] 0 0 5).final.error = false) ∧
    ((runPipeline exampleParams () [] [] 0 0 5).final.num_compute_list =
        (runPipeline exampleParams () [] [] 1 1 6).final.num_compute_list ∧
      (runPipeline exampleParams () [] [] 0 0 5).vlen =
        (runPipeline exampleParams () [] [] 1 1 6).vlen ∧
      (∀ j, ((runPipeline exampleParams () [] [] 0 0 5).final.vel_array j).take
          (((runPipeline exampleParams () [] [] 0 0 5).final.num_compute_list).getD j 0) =
        ((runPipeline exampleParams () [] [] 1 1 6).final.vel_array j).take
          (((runPipeline exampleParams () [] [] 1 1 6).final.num_compute_list).getD j 0)) ∧
      (∀ j, ((runPipeline exampleParams () [] [] 0 0 5).final.baz_array j).take
          (((runPipeline exampleParams () [] [] 0 0 5).final.num_compute_list).getD j 0) =
        ((runPipeline exampleParams () [] [] 1 1 6).final.baz_array j).take
          (((runPipeline exampleParams () [] [] 1 1 6).final.num_compute_list).getD j 0)) ∧
      (∀ j, ((runPipeline exampleParams () [] [] 0 0 5).final.mdccm_array j).take
          (((runPipeline exampleParams () [] [] 0 0 5).final.num_compute_list).getD j 0) =
        ((runPipeline exampleParams () [] [] 1 1 6).final.mdccm_array j).take
          (((runPipeline exampleParams () [] [] 1 1 6).final.num_compute_list).getD j 0)) ∧
      (∀ j, ((runPipeline exampleParams () [] [] 0 0 5).final.t_array j).take
          (((runPipeline exampleParams () [] [] 0 0 5).final.num_compute_list).getD j 0) =
        ((runPipeline exampleParams () [] [] 1 1 6).final.t_array j).take
          (((runPipeline exampleParams () [] [] 1 1 6).final.num_compute_list).getD j 0))) :=
  ⟨by with_unfolding_all decide,
   (C9_amended_determinism exampleParams () [] [] 0 1 0 1 5 6
     (fun _ => ⟨rfl, rfl, rfl⟩)).2 (by with_unfolding_all decide)⟩

/-- Witness for C1 at the concrete instantiation: the run succeeds, the
capacity is 7 columns, and the single band's count 0 is within it. -/
theorem C1_aggregate_capacity_witness :
    ((runPipeline exampleParams () [] [] 0 0 5).final.error = false) ∧
    ((runPipeline exampleParams () [] [] 0 0 5).vlen =
      windowCapacity exampleParams.window_length exampleParams.WINOVER
        exampleParams.WINLEN exampleParams.WINLEN_X
        (exampleParams.ext.npts_of ())
        (exampleParams.ext.filter_data () exampleParams.filter_type
          exampleParams.FMIN exampleParams.FMAX exampleParams.filter_order
          exampleParams.filter_ripple).2.1 ∧
     (∀ j, ((runPipeline exampleParams () [] [] 0 0 5).final.vel_array j).length =
       (runPipeline exampleParams () [] [] 0 0 5).vlen.toNat) ∧
     (∀ j, ((runPipeline exampleParams () [] [] 0 0 5).final.baz_array j).length =
       (runPipeline exampleParams () [] [] 0 0 5).vlen.toNat) ∧
     (∀ j, ((runPipeline exampleParams () [] [] 0 0 5).final.mdccm_array j).length =
       (runPipeline exampleParams () [] [] 0 0 5).vlen.toNat) ∧
     (∀ j, ((runPipeline exampleParams () [] [] 0 0 5).final.t_array j).length =
       (runPipeline exampleParams () [] [] 0 0 5).vlen.toNat) ∧
     ((runPipeline exampleParams () [] [] 0 0 5).final.num_compute_list).length =
       exampleParams.nbands ∧
     (∀ x ∈ (runPipeline exampleParams () [] [] 0 0 5).final.num_compute_list,
       x ≤ (runPipeline exampleParams () [] [] 0 0 5).vlen.toNat)) :=
  ⟨by with_unfolding_all decide, C1_aggregate_capacity exampleParams () [] [] 0 0 5 (by with_unfolding_all decide)⟩

/-- Witness for C5 at the concrete instantiation: the `ltsva` call log
is `[WINLEN, WINLEN_list[0]] = [4, 2]`. -/
theorem C5_beamformer_window_lengths_witness :
    ((runPipeline exampleParams () [] [] 0 0 5).final.error = false) ∧
    ((runPipeline exampleParams () [] [] 0 0 5).final.ltsva_winlens =
      exampleParams.WINLEN ::
        (List.range exampleParams.nbands).map
          (fun i => exampleParams.WINLEN_list.getD i 0)) :=
  ⟨by with_unfolding_all decide, C5_beamformer_window_lengths exampleParams () [] [] 0 0 5 (by with_unfolding_all decide)⟩

/-- Witness for C8 at the concrete instantiation: the first band's
iteration from the pre-loop state succeeds, writes row 0, and leaves
the shared state and all other rows intact. -/
theorem C8_band_iteration_frame_witness :
    ((bandStep exampleParams 0 (initPState exampleParams () [] [] 0 0)).error = false) ∧
    ((bandStep exampleParams 0 (initPState exampleParams () [] [] 0 0)).st =
        (initPState exampleParams () [] [] 0 0).st ∧
      (bandStep exampleParams 0 (initPState exampleParams () [] [] 0 0)).rij =
        (initPState exampleParams () [] [] 0 0).rij ∧
      (bandStep exampleParams 0 (initPState exampleParams () [] [] 0 0)).freq_resp_list =
        (initPState exampleParams () [] [] 0 0).freq_resp_list ∧
      (bandStep exampleParams 0 (initPState exampleParams () [] [] 0 0)).num_compute_list =
        (initPState exampleParams () [] [] 0 0).num_compute_list ++
          [(velFloat exampleParams (initPState exampleParams () [] [] 0 0).st
            (initPState exampleParams () [] [] 0 0).rij 0).length] ∧
      (bandStep exampleParams 0 (initPState exampleParams () [] [] 0 0)).vel_array 0 =
        writePrefix ((initPState exampleParams () [] [] 0 0).vel_array 0)
          (velFloat exampleParams (initPState exampleParams () [] [] 0 0).st
            (initPState exampleParams () [] [] 0 0).rij 0) ∧
      (bandStep exampleParams 0 (initPState exampleParams () [] [] 0 0)).baz_array 0 =
        writePrefix ((initPState exampleParams () [] [] 0 0).baz_array 0)
          (bazFloat exampleParams (initPState exampleParams () [] [] 0 0).st
            (initPState exampleParams () [] [] 0 0).rij 0) ∧
      (bandStep exampleParams 0 (initPState exampleParams () [] [] 0 0)).mdccm_array 0 =
        writePrefix ((initPState exampleParams () [] [] 0 0).mdccm_array 0)
          (mdccmFloat exampleParams (initPState exampleParams () [] [] 0 0).st
            (initPState exampleParams () [] [] 0 0).rij 0) ∧
      (bandStep exampleParams 0 (initPState exampleParams () [] [] 0 0)).t_array 0 =
        writePrefix ((initPState exampleParams () [] [] 0 0).t_array 0)
          (tFloat exampleParams (initPState exampleParams () [] [] 0 0).st
            (initPState exampleParams () [] [] 0 0).rij 0) ∧
      (bandStep exampleParams 0 (initPState exampleParams () [] [] 0 0)).w_array 0 =
        (bandWH exampleParams (initPState exampleParams () [] [] 0 0).st
          (initPState exampleParams () [] [] 0 0).freq_resp_list 0).1 ∧
      (bandStep exampleParams 0 (initPState exampleParams () [] [] 0 0)).h_array 0 =
        (bandWH exampleParams (initPState exampleParams () [] [] 0 0).st
          (initPState exampleParams () [] [] 0 0).freq_resp_list 0).2 ∧
      (∀ j, j ≠ 0 →
        (bandStep exampleParams 0 (initPState exampleParams () [] [] 0 0)).vel_array j =
          (initPState exampleParams () [] [] 0 0).vel_array j) ∧
      (∀ j, j ≠ 0 →
        (bandStep exampleParams 0 (initPState exampleParams () [] [] 0 0)).baz_array j =
          (initPState exampleParams () [] [] 0 0).baz_array j) ∧
      (∀ j, j ≠ 0 →
        (bandStep exampleParams 0 (initPState exampleParams () [] [] 0 0)).mdccm_array j =
          (initPState exampleParams () [] [] 0 0).mdccm_array j) ∧
      (∀ j, j ≠ 0 →
        (bandStep exampleParams 0 (initPState exampleParams () [] [] 0 0)).t_array j =
          (initPState exampleParams () [] [] 0 0).t_array j) ∧
      (∀ j, j ≠ 0 →
        (bandStep exampleParams 0 (initPState exampleParams () [] [] 0 0)).w_array j =
          (initPState exampleParams () [] [] 0 0).w_array j) ∧
      (∀ j, j ≠ 0 →
        (bandStep exampleParams 0 (initPState exampleParams () [] [] 0 0)).h_array j =
          (initPState exampleParams () [] [] 0 0).h_array j)) :=
  ⟨by with_unfolding_all decide,
   C8_band_iteration_frame exampleParams 0 (initPState exampleParams () [] [] 0 0)
     (by with_unfolding_all decide)⟩

end NBLS
